import Mathlib

/-!
Verification of the nier inference service and pipeline library.

The definitions below are a shallow embedding of the Python sources:

* `src/services/inference/src/models/ppe_detector.py` (`PPEDetector.predict`)
* `src/services/inference/src/inference_server.py` (`InferenceBatcher`)
* `src/services/inference/src/kafka_producer.py` (`DetectionKafkaProducer`)
* `src/services/pipeline/python/consumer.py` (`NierConsumer.run`)
* `src/services/pipeline/python/schemas.py` (wire schemas and their JSON codec)

Wall-clock timing fields (inference_time_ms, publish_timestamp_ms) and the
image payloads are abstracted: an image is represented by its height and
width, which is all `predict` inspects (`image.shape[:2]`).  Python
exceptions are represented by the `PyErr` type; fallible code returns
`Except PyErr` or `Option`.
-/

namespace Nier

/-- Python exceptions that the modelled code can raise.  The constructor
`inferenceFailed` does not correspond to any exception class in the source
tree: it is modelled from the spec error taxonomy (section 7 lists
`InferenceFailed` as "detector raised ... wrapping the cause") and exists
here so that theorems can compare what the code raises against what the
spec names. -/
inductive PyErr where
  | runtimeError (msg : String)
  | valueError (msg : String)
  | kafkaError (msg : String)
  | connectionError (msg : String)
  | indexError
  | inferenceFailed (cause : String)
  deriving DecidableEq, Repr

/-- Decidable test for the spec-modelled `InferenceFailed` wrapper. -/
def PyErr.isInferenceFailed : PyErr → Bool
  | .inferenceFailed _ => true
  | _ => false

/-- An image, abstracted to the only data `predict` reads from it:
`height, width = image.shape[:2]`. -/
structure Image where
  height : Nat
  width : Nat
  deriving DecidableEq, Repr

/-- One detection, from `src/models/base.py` (`Detection`).  Confidence and
box coordinates are Python floats; they are modelled as rationals. -/
structure Detection where
  class_name : String
  class_id : Int
  confidence : Rat
  deriving DecidableEq, Repr

/-- Result of inference on a single image, from `src/models/base.py`
(`DetectionResult`).  The wall-clock `inference_time_ms` and the free-form
`metadata` dict are omitted from the model. -/
structure DetectionResult where
  frame_id : String
  timestamp_ms : Int
  detections : List Detection
  image_width : Nat
  image_height : Nat
  deriving DecidableEq, Repr

/-- State of an `asyncio.Future[DetectionResult]`. -/
inductive FutureState where
  | pending
  | resolved (r : DetectionResult)
  | failed (e : PyErr)
  | cancelled
  deriving DecidableEq, Repr

/-- `future.done()`: true in every state except pending. -/
def FutureState.done : FutureState → Bool
  | .pending => false
  | _ => true

/-- Terminal state: resolved with a result, failed, or cancelled. -/
def FutureState.terminal : FutureState → Bool
  | .pending => false
  | _ => true

/-!
## PPEDetector.predict

`predict(images, frame_ids, timestamps)` checks that the model is loaded and
that the three parallel lists have equal length, returns `[]` for an empty
batch, and otherwise runs the underlying model and builds one
`DetectionResult` per input, reading `results[idx]` for each index.

The underlying model call (`_predict_yolo` / `_predict_onnx`) is external
tensor execution; it is abstracted as the list `raws` of raw per-image
outputs together with a parse function standing for `_parse_detections`
(which is deterministic in the raw output and the image dimensions).
-/

/-- The per-index result construction loop of `predict` (the
`for idx, (image, frame_id, timestamp) in enumerate(zip(...))` loop).
Reading `raws[idx]` past the end raises `IndexError`, as in Python. -/
def buildResults (Raw : Type) (parse : Raw → Nat → Nat → List Detection)
    (raws : List Raw) : List (Image × String × Int) → Nat →
    Except PyErr (List DetectionResult)
  | [], _ => .ok []
  | (img, fid, ts) :: rest, idx =>
    match raws[idx]? with
    | none => .error .indexError
    | some raw =>
      match buildResults Raw parse raws rest (idx + 1) with
      | .error e => .error e
      | .ok rs =>
        .ok ({ frame_id := fid, timestamp_ms := ts,
               detections := parse raw img.width img.height,
               image_width := img.width, image_height := img.height } :: rs)

/-- Model of `PPEDetector.predict`. -/
def predict (Raw : Type) (isLoaded : Bool)
    (parse : Raw → Nat → Nat → List Detection) (raws : List Raw)
    (images : List Image) (frame_ids : List String) (timestamps : List Int) :
    Except PyErr (List DetectionResult) :=
  if ¬ isLoaded then
    .error (.runtimeError "Model not loaded. Call load() first.")
  else if images.length ≠ frame_ids.length ∨ images.length ≠ timestamps.length then
    .error (.valueError "Length mismatch between images, frame_ids, and timestamps")
  else if images.length = 0 then
    .ok []
  else
    buildResults Raw parse raws (images.zip (frame_ids.zip timestamps)) 0

/-!
## InferenceBatcher._process_batch

An item in the batch queue (`BatchItem` in the source), with its future
state inlined.  The `worker_id` and `camera_id` fields only flow into the
Kafka payload and are omitted here; the model corresponds to a batcher
constructed with `kafka_producer=None`, so the publish call inside the
result loop is skipped (`if self.kafka_producer and ...`). -/
structure BatchItem where
  image : Image
  frame_id : String
  timestamp_ms : Int
  future : FutureState
  deriving DecidableEq, Repr

/-- Model of `InferenceBatcher._process_batch`: run `predict` over the
parallel arrays extracted from the items; on success resolve each future
with the result at the same index (`for item, result in zip(items, results)`,
`set_result` only when not done); on any exception fail every not-done
future with the raised exception. -/
def processBatch (Raw : Type) (isLoaded : Bool)
    (parse : Raw → Nat → Nat → List Detection) (raws : List Raw)
    (items : List BatchItem) : List BatchItem :=
  match predict Raw isLoaded parse raws (items.map (·.image))
      (items.map (·.frame_id)) (items.map (·.timestamp_ms)) with
  | .ok results =>
    (items.zip results).map fun p =>
      { p.1 with future := if p.1.future.done then p.1.future else .resolved p.2 }
  | .error e =>
    items.map fun item =>
      { item with future := if item.future.done then item.future else .failed e }

/-!
## InferenceBatcher: queue, batch collection, and the event-level model

`_batch_loop` collects a batch with

    while self._queue and len(batch_items) < self.max_batch_size:
        batch_items.append(self._queue.popleft())

and calls `_process_batch` only when the collected list is non-empty.
-/

/-- The batch collection while-loop, popping from the queue head into the
accumulator while the queue is non-empty and the accumulator is shorter
than `maxBatchSize`.  Returns the collected batch and the remaining
queue. -/
def collectLoop (maxBatchSize : Nat) : List Nat → List Nat → List Nat × List Nat
  | [], acc => (acc, [])
  | x :: q, acc =>
    if acc.length < maxBatchSize then
      collectLoop maxBatchSize q (acc ++ [x])
    else
      (acc, x :: q)

/-- Batch collection as performed by `_batch_loop` under the queue lock. -/
def collectBatch (maxBatchSize : Nat) (queue : List Nat) : List Nat × List Nat :=
  collectLoop maxBatchSize queue []

/-- Outcome of one detector call at the event level: either every item of
the batch gets a result, or the detector raises `e`. -/
inductive BatchOutcome where
  | ok
  | raises (e : PyErr)
  deriving DecidableEq, Repr

/-- Status of a submission future in the event-level batcher model (result
payloads are tracked by `processBatch` above; here only the resolution
status matters). -/
inductive FStatus where
  | pending
  | resolved
  | failed (e : PyErr)
  | cancelled
  deriving DecidableEq, Repr

/-- Event-level state of an `InferenceBatcher`.  `futures` maps each
submission id (assigned consecutively from 0) to its status; `queue` holds
the ids of enqueued, not yet collected submissions in FIFO order;
`inFlight` holds the batch currently being processed, if any; `loopAlive`
is whether the `_batch_loop` task is still running; `dispatched` records
every batch handed to `Detector.predict`, for stating observations. -/
structure BState where
  running : Bool
  loopAlive : Bool
  queue : List Nat
  inFlight : List Nat
  futures : List (Nat × FStatus)
  nextId : Nat
  dispatched : List (List Nat)
  deriving DecidableEq, Repr

/-- The batcher state right after `start()`: loop task spawned, queue
empty. -/
def BState.started : BState :=
  { running := true, loopAlive := true, queue := [], inFlight := [],
    futures := [], nextId := 0, dispatched := [] }

/-- Look up the status of submission id `i`. -/
def BState.statusOf (s : BState) (i : Nat) : Option FStatus :=
  (s.futures.find? (fun p => p.1 = i)).map (·.2)

/-- Set the status of submission id `i` when its current status is pending
(`if not item.future.done()` in the source). -/
def setIfPending (futures : List (Nat × FStatus)) (i : Nat) (st : FStatus) :
    List (Nat × FStatus) :=
  futures.map fun p => if p.1 = i ∧ p.2 = .pending then (p.1, st) else p

/-- Apply `setIfPending` for every id in a batch. -/
def setAllIfPending (futures : List (Nat × FStatus)) (ids : List Nat)
    (st : FStatus) : List (Nat × FStatus) :=
  ids.foldl (fun f i => setIfPending f i st) futures

/-- Atomic events of the batcher.  Each event is one critical section of
the Python code (the code between two suspension points of the cooperative
event loop):

* `submit`: the body of `submit` up to returning the future — it appends a
  fresh item to the queue unconditionally (the source performs no check of
  `_running` and no capacity check).
* `collect`: one wake-up of `_batch_loop`: pop up to `max_batch_size` items
  from the queue head; enabled while the loop task is alive and no batch is
  currently awaiting the detector.  A batch is dispatched only if
  non-empty.
* `finishBatch o`: the detector call returns (`o = ok`) or raises
  (`o = raises e`); `_process_batch` resolves or fails every not-done
  future of the in-flight batch and the loop continues.
* `loopExit`: the `while self._running` check fails and the loop task
  finishes; enabled once `running` is false and no batch is in flight.
* `stopSignal`: the first half of `stop()`: set `_running = False` and set
  the batch event.
* `stopFinish`: the second half of `stop()`, after `await self._batch_task`
  completes: cancel every queued not-done future and clear the queue;
  enabled only once the loop task has exited.  `stop()` has returned once
  this event has fired. -/
inductive BEvent where
  | submit
  | collect
  | finishBatch (o : BatchOutcome)
  | loopExit
  | stopSignal
  | stopFinish
  deriving DecidableEq, Repr

/-- One atomic step of the batcher model. -/
def bstep (maxBatchSize : Nat) (s : BState) : BEvent → BState
  | .submit =>
    { s with queue := s.queue ++ [s.nextId],
             futures := s.futures ++ [(s.nextId, .pending)],
             nextId := s.nextId + 1 }
  | .collect =>
    if s.loopAlive ∧ s.inFlight = [] then
      let c := collectBatch maxBatchSize s.queue
      if c.1 = [] then { s with queue := c.2 }
      else { s with queue := c.2, inFlight := c.1, dispatched := s.dispatched ++ [c.1] }
    else s
  | .finishBatch o =>
    if s.inFlight = [] then s
    else
      let st : FStatus := match o with
        | .ok => .resolved
        | .raises e => .failed e
      { s with futures := setAllIfPending s.futures s.inFlight st, inFlight := [] }
  | .loopExit =>
    if ¬ s.running ∧ s.inFlight = [] then { s with loopAlive := false } else s
  | .stopSignal => { s with running := false }
  | .stopFinish =>
    if ¬ s.loopAlive then
      { s with futures := setAllIfPending s.futures s.queue .cancelled, queue := [] }
    else s

/-- Run a sequence of events from a state. -/
def brun (maxBatchSize : Nat) (s : BState) : List BEvent → BState
  | [] => s
  | e :: es => brun maxBatchSize (bstep maxBatchSize s e) es

/-!
## DetectionKafkaProducer

From `src/services/inference/src/kafka_producer.py`.  The broker itself is
external: the synchronous outcome of `producer.send` (enqueue accepted vs.
a synchronously raised `KafkaError`) and the outcome of the connection
attempt are parameters of the corresponding operations.  The pending
counter is a Python int that is only ever incremented by one, set to zero,
or assigned `max(0, x - 1)`, so it stays non-negative and is modelled as a
`Nat` (for which Lean subtraction `x - 1` is exactly `max(0, x - 1)`).
-/

/-- State of a `DetectionKafkaProducer`: the `_producer` handle (abstracted
to presence), `_is_connected`, `_pending_messages` and `_max_pending`. -/
structure PubState where
  producer : Option Unit
  connected : Bool
  pending : Nat
  maxPending : Nat
  deriving DecidableEq, Repr

/-- The state built by `__init__`: no handle, disconnected, zero pending,
`_max_pending = 10000`. -/
def PubState.init : PubState :=
  { producer := none, connected := false, pending := 0, maxPending := 10000 }

/-- Synchronous outcome of `producer.send` inside `publish_detection`. -/
inductive SendOutcome where
  | accepted
  | raisesKafkaError (msg : String)
  deriving DecidableEq, Repr

/-- Outcome of the blocking producer construction inside `connect`. -/
inductive ConnectOutcome where
  | ok
  | noBrokers (msg : String)
  deriving DecidableEq, Repr

/-- Model of `connect`: a no-op when already connected; otherwise create
the producer (assigning the handle and setting `_is_connected` only on
success) or raise `ConnectionError`. -/
def pubConnect (s : PubState) : ConnectOutcome → Except PyErr PubState
  | .ok => if s.connected then .ok s
           else .ok { s with producer := some (), connected := true }
  | .noBrokers m => if s.connected then .ok s else .error (.connectionError m)

/-- Model of `disconnect`: early return when not connected or the handle is
absent; otherwise flush and close — whether or not they raise
(`flushOrCloseRaises`), the `finally` block clears the handle, marks the
producer disconnected and zeroes the pending count. -/
def pubDisconnect (s : PubState) (flushOrCloseRaises : Bool) : PubState :=
  if ¬ s.connected ∨ s.producer = none then s
  else
    let _ := flushOrCloseRaises
    { s with producer := none, connected := false, pending := 0 }

/-- Model of `publish_detection`.  Raises `RuntimeError` when not connected
(the spec calls this error `NotConnected`); returns `false` without raising
and without touching the state when `_pending_messages >= _max_pending`;
otherwise increments the pending count and hands the message to
`producer.send`, returning `true`, or `false` if the send raises a
`KafkaError` synchronously (the increment is not undone in that branch). -/
def publishDetection (s : PubState) (sendOutcome : SendOutcome) :
    Except PyErr (Bool × PubState) :=
  if ¬ s.connected ∨ s.producer = none then
    .error (.runtimeError "Kafka producer not connected. Call connect() first.")
  else if s.pending ≥ s.maxPending then
    .ok (false, s)
  else
    let s1 := { s with pending := s.pending + 1 }
    match sendOutcome with
    | .accepted => .ok (true, s1)
    | .raisesKafkaError _ => .ok (false, s1)

/-- Model of the `_on_send_success` callback: `max(0, pending - 1)`. -/
def onSendSuccess (s : PubState) : PubState :=
  { s with pending := s.pending - 1 }

/-- Model of the `_on_send_error` callback: `max(0, pending - 1)`. -/
def onSendError (s : PubState) : PubState :=
  { s with pending := s.pending - 1 }

/-- Reachable producer states: every state obtainable from `__init__` by
any sequence of `connect`, `publish_detection`, delivery callbacks and
`disconnect` (operations that raise leave the state unchanged, so they
introduce no new states). -/
inductive PubReach : PubState → Prop
  | init : PubReach .init
  | connect (s s2 : PubState) (o : ConnectOutcome) : PubReach s →
      pubConnect s o = .ok s2 → PubReach s2
  | publish (s s2 : PubState) (o : SendOutcome) (b : Bool) : PubReach s →
      publishDetection s o = .ok (b, s2) → PubReach s2
  | cbSuccess (s : PubState) : PubReach s → PubReach (onSendSuccess s)
  | cbError (s : PubState) : PubReach s → PubReach (onSendError s)
  | disconnect (s : PubState) (fr : Bool) : PubReach s →
      PubReach (pubDisconnect s fr)

/-!
## NierConsumer.run

From `src/services/pipeline/python/consumer.py`.  The model follows one
topic partition (commits are per partition; the claim concerns the
relation between handler outcomes and commits on the records of a
partition).  The confluent-kafka client commits the current *consumed
position*: after `poll` has returned the record at offset `o`, the
position is `o + 1`, and `commit()` / `commit(asynchronous=True)` commit
that position — an offset `o` counts as committed once a position
strictly greater than `o` has been committed.
-/

/-- What one iteration of the poll loop observes. -/
inductive CEvent where
  /-- `poll` returned the record at offset `o`; `handlerOk` is whether
  `handler.handle` returned (true) or raised (false). -/
  | record (o : Nat) (handlerOk : Bool)
  /-- `poll` returned None. -/
  | pollNone
  /-- `poll` returned an error message (PartitionEOF or a broker error):
  logged, loop continues. -/
  | pollError
  /-- `shutdown()` fired (signal handler or another thread): sets
  `_running = False`; the current iteration has already completed. -/
  | shutdownSig
  deriving DecidableEq, Repr

/-- Consumer state for one partition.  `position` is the consumed position
maintained by the broker client (`none` before the first record);
`committed` is the highest committed position; `commits` records every
commit call with the position it committed; `dlq` records offsets of
records routed to the dead-letter queue. -/
structure CState where
  running : Bool
  position : Option Nat
  committed : Option Nat
  commits : List Nat
  dlq : List Nat
  deriving DecidableEq, Repr

/-- Consumer state at the top of `run`: `_running = True`, nothing
consumed or committed. -/
def CState.start : CState :=
  { running := true, position := none, committed := none, commits := [], dlq := [] }

/-- Commit the current position (`self._consumer.commit(...)`): a no-op if
nothing has been consumed yet. -/
def commitPosition (s : CState) : CState :=
  match s.position with
  | none => s
  | some p => { s with committed := some p, commits := s.commits ++ [p] }

/-- One iteration of the poll loop body.  `autoCommit` is
`config.consumer.enable_auto_commit` (default false).  A record advances
the position; a successful handler triggers `commit_async` when
auto-commit is disabled; a raising handler triggers `on_error` and the DLQ
path and no commit. -/
def cstep (autoCommit : Bool) (s : CState) : CEvent → CState
  | .record o ok =>
    let s1 := { s with position := some (o + 1) }
    if ok then
      if ¬ autoCommit then commitPosition s1 else s1
    else
      { s1 with dlq := s1.dlq ++ [o] }
  | .pollNone => s
  | .pollError => s
  | .shutdownSig => { s with running := false }

/-- The `while self._running` loop over a schedule of events, followed by
the `finally` block of `run`, which issues a final synchronous commit when
auto-commit is disabled. -/
def crunLoop (autoCommit : Bool) (s : CState) : List CEvent → CState
  | [] => s
  | e :: es => if s.running then crunLoop autoCommit (cstep autoCommit s e) es else s

/-- Model of `NierConsumer.run`: the poll loop, then the final commit in
the `finally` block. -/
def crun (autoCommit : Bool) (events : List CEvent) : CState :=
  let s := crunLoop autoCommit .start events
  if ¬ autoCommit then commitPosition s else s

/-- Whether the record at offset `o` has been committed: some committed
position strictly exceeds `o`, i.e. a restart of the group would not
redeliver it. -/
def CState.offsetCommitted (s : CState) (o : Nat) : Bool :=
  match s.committed with
  | none => false
  | some c => o < c

/-!
## Wire schemas and their JSON codec

From `src/services/pipeline/python/schemas.py`.  The embedding models:

* Python `str` as Lean `String`; `bytes` as the character sequence of the
  UTF-8 text (UTF-8 encode/decode transport the character sequence
  faithfully, so `to_bytes`/`from_bytes` are `to_json`/`from_json`
  composed with the `String`/`List Char` isomorphism);
* Python `float` values as rationals (`Rat`), a superset of the binary64
  values (the `repr`-based float formatting of `json.dumps` round-trips
  exactly in Python; the model prints a rational exactly as
  numerator/denominator, which round-trips by construction);
* Python `int` as `Int`;
* `datetime` as its broken-down components (`PyDatetime`), with
  `isoformat`/`fromisoformat` implemented on them;
* `dict` as an association list in insertion order;
* `json.dumps` with its default separators (", " and ": ") as the printer
  `dumps`, and `json.loads` restricted to the canonical whitespace that
  `dumps` emits as the fuelled parser `parseJ` (a restriction of the
  Python decoder, which also accepts other whitespace);
* decoders check the dynamic type of each field (in Python a wrongly
  typed field would be assigned unchecked; the checks only narrow the
  off-domain behaviour and do not affect round-trips of in-domain
  values).
-/

/-- The character of a single decimal digit. -/
def digitChar (d : Nat) : Char := Char.ofNat (48 + d)

/-- Zero-padded fixed-width decimal printing (the %0kd of the Python
format machinery used by `datetime.isoformat`), most significant digit
first; for `n < 10 ^ k` this is the usual k-digit form. -/
def printPad : Nat → Nat → List Char
  | 0, _ => []
  | k + 1, n => digitChar (n / 10 ^ k) :: printPad k (n % 10 ^ k)

/-- Unpadded decimal printing of a natural number. -/
def printNat (n : Nat) : List Char :=
  if _h : n < 10 then [digitChar n]
  else printNat (n / 10) ++ [digitChar (n % 10)]
  termination_by n
  decreasing_by exact Nat.div_lt_self (by omega) (by omega)

/-- Read a run of decimal digits (at least one) and its value. -/
def readNat (cs : List Char) : Option (Nat × List Char) :=
  let ds := cs.takeWhile Char.isDigit
  if ds.isEmpty then none
  else some (ds.foldl (fun a c => a * 10 + (c.toNat - 48)) 0,
             cs.dropWhile Char.isDigit)

/-- Read exactly `k` decimal digits. -/
def readFixedAux : Nat → Nat → List Char → Option (Nat × List Char)
  | 0, acc, cs => some (acc, cs)
  | k + 1, acc, c :: cs =>
    if c.isDigit then readFixedAux k (acc * 10 + (c.toNat - 48)) cs else none
  | _ + 1, _, [] => none

/-- Read exactly `k` decimal digits starting from zero. -/
def readFixed (k : Nat) (cs : List Char) : Option (Nat × List Char) :=
  readFixedAux k 0 cs

/-- A Python `datetime`, broken into its components (naive, i.e. without
timezone information, as the schema code constructs them). -/
structure PyDatetime where
  year : Nat
  month : Nat
  day : Nat
  hour : Nat
  minute : Nat
  second : Nat
  microsecond : Nat
  deriving DecidableEq, Repr

/-- The component ranges that `datetime` enforces at construction. -/
def PyDatetime.wf (d : PyDatetime) : Prop :=
  1 ≤ d.year ∧ d.year ≤ 9999 ∧ 1 ≤ d.month ∧ d.month ≤ 12 ∧
  1 ≤ d.day ∧ d.day ≤ 31 ∧ d.hour ≤ 23 ∧ d.minute ≤ 59 ∧
  d.second ≤ 59 ∧ d.microsecond ≤ 999999

instance (d : PyDatetime) : Decidable d.wf := by
  unfold PyDatetime.wf
  infer_instance

/-- `datetime.isoformat()`: YYYY-MM-DDTHH:MM:SS, with a .ffffff suffix
exactly when the microsecond field is non-zero. -/
def isoformat (d : PyDatetime) : List Char :=
  printPad 4 d.year ++ ['-'] ++ printPad 2 d.month ++ ['-'] ++ printPad 2 d.day ++
  ['T'] ++ printPad 2 d.hour ++ [':'] ++ printPad 2 d.minute ++ [':'] ++
  printPad 2 d.second ++
  (if d.microsecond = 0 then [] else ['.'] ++ printPad 6 d.microsecond)

/-- Consume one expected character. -/
def expectChar (c : Char) : List Char → Option (List Char)
  | [] => none
  | d :: cs => if d = c then some cs else none

/-- `datetime.fromisoformat` restricted to the shapes `isoformat`
produces (the Python parser accepts more; only the inverse direction is
needed). -/
def fromisoformat (cs : List Char) : Option PyDatetime :=
  (readFixed 4 cs).bind fun p1 =>
  (expectChar '-' p1.2).bind fun r2 =>
  (readFixed 2 r2).bind fun p2 =>
  (expectChar '-' p2.2).bind fun r4 =>
  (readFixed 2 r4).bind fun p3 =>
  (expectChar 'T' p3.2).bind fun r6 =>
  (readFixed 2 r6).bind fun p4 =>
  (expectChar ':' p4.2).bind fun r8 =>
  (readFixed 2 r8).bind fun p5 =>
  (expectChar ':' p5.2).bind fun r10 =>
  (readFixed 2 r10).bind fun p6 =>
  match p6.2 with
  | [] => some ⟨p1.1, p2.1, p3.1, p4.1, p5.1, p6.1, 0⟩
  | c :: r12 =>
    if c = '.' then
      match readFixed 6 r12 with
      | none => none
      | some p7 =>
        match p7.2 with
        | [] => some ⟨p1.1, p2.1, p3.1, p4.1, p5.1, p6.1, p7.1⟩
        | _ => none
    else none

/-- JSON values as Python json sees them (ints and floats are distinct
leaves, objects keep insertion order). -/
inductive Json where
  | null
  | bool (b : Bool)
  | int (n : Int)
  | num (q : Rat)
  | str (s : String)
  | arr (xs : List Json)
  | obj (kvs : List (String × Json))
  deriving Repr

/-- The opening brace character (written by code point to keep brace
characters out of literals). -/
def lbraceChar : Char := Char.ofNat 123

/-- The closing brace character. -/
def rbraceChar : Char := Char.ofNat 125

/-- Python truthiness of a JSON value (`if data.get(k):` in the
decoders). -/
def Json.truthy : Json → Bool
  | .null => false
  | .bool b => b
  | .int n => n ≠ 0
  | .num q => q ≠ 0
  | .str s => s ≠ ""
  | .arr xs => ¬ xs.isEmpty
  | .obj kvs => ¬ kvs.isEmpty

/-- Dictionary access `data[k]` (None when the key is missing, where
Python would raise KeyError). -/
def Json.getKey (j : Json) (k : String) : Option Json :=
  match j with
  | .obj kvs => (kvs.find? (fun p => p.1 = k)).map (·.2)
  | _ => none

/-- String escaping of `json.dumps`: quote and backslash are escaped (the
control and non-ASCII escapes of the Python encoder are likewise
inverted by its decoder and are not modelled separately). -/
def escapeChars : List Char → List Char
  | [] => []
  | c :: cs =>
    (if c = '"' ∨ c = '\\' then ['\\', c] else [c]) ++ escapeChars cs

/-- Decimal printing of an integer. -/
def printInt (n : Int) : List Char :=
  if n < 0 then '-' :: printNat n.natAbs else printNat n.natAbs

/-- Exact printing of a rational (modelling the exact round-trip float
repr of Python): numerator, a slash, denominator. -/
def printRat (q : Rat) : List Char :=
  (if q.num < 0 then ['-'] else []) ++ printNat q.num.natAbs ++
  ['/'] ++ printNat q.den

mutual
/-- `json.dumps` with the default separators, over characters. -/
def dumps : Json → List Char
  | .int n => printInt n
  | .null => ['n', 'u', 'l', 'l']
  | .num q => printRat q
  | .bool true => ['t', 'r', 'u', 'e']
  | .str s => '"' :: escapeChars s.data ++ ['"']
  | .bool false => ['f', 'a', 'l', 's', 'e']
  | .arr xs => '[' :: dumpsList xs ++ [']']
  | .obj kvs => lbraceChar :: dumpsObj kvs ++ [rbraceChar]

/-- Array elements, separated by ", ". -/
def dumpsList : List Json → List Char
  | [] => []
  | [x] => dumps x
  | x :: y :: xs => dumps x ++ [',', ' '] ++ dumpsList (y :: xs)

/-- Object members `"key": value`, separated by ", ". -/
def dumpsObj : List (String × Json) → List Char
  | [] => []
  | [(k, v)] => '"' :: escapeChars k.data ++ ['"', ':', ' '] ++ dumps v
  | (k, v) :: p :: ps =>
    '"' :: escapeChars k.data ++ ['"', ':', ' '] ++ dumps v ++ [',', ' '] ++
    dumpsObj (p :: ps)
end

/-- Parse the body of a JSON string after the opening quote, undoing
`escapeChars`, up to the closing quote. -/
def parseStrChars : List Char → Option (List Char × List Char)
  | [] => none
  | c :: cs =>
    if c = '\\' then
      match cs with
      | [] => none
      | c2 :: cs2 => (parseStrChars cs2).map (fun p => (c2 :: p.1, p.2))
    else if c = '"' then some ([], cs)
    else (parseStrChars cs).map (fun p => (c :: p.1, p.2))

/-- Negate a parsed numeric JSON leaf. -/
def negJ : Json → Json
  | .int n => .int (-n)
  | .num q => .num (-q)
  | j => j

/-- Parse an unsigned number token: digits, optionally followed by a
slash and denominator digits. -/
def parseNumAbs (cs : List Char) : Option (Json × List Char) :=
  match readNat cs with
  | none => none
  | some (n1, r1) =>
    match r1 with
    | [] => some (.int (n1 : Int), [])
    | c :: r2 =>
      if c = '/' then
        match readNat r2 with
        | some (n2, r3) => some (.num (mkRat (n1 : Int) n2), r3)
        | none => none
      else some (.int (n1 : Int), c :: r2)

/-- Parse a possibly signed number token. -/
def parseNumTok : List Char → Option (Json × List Char)
  | [] => none
  | c :: cs =>
    if c = '-' then (parseNumAbs cs).map (fun p => (negJ p.1, p.2))
    else parseNumAbs (c :: cs)

/-- Match an expected literal tail, yielding the given value. -/
def expectLit (j : Json) : List Char → List Char → Option (Json × List Char)
  | [], cs => some (j, cs)
  | l :: ls, c :: cs => if c = l then expectLit j ls cs else none
  | _ :: _, [] => none

mutual
/-- The JSON reader (`json.loads` on the canonical text `dumps` emits),
with fuel bounding the nesting depth. -/
def parseJ : Nat → List Char → Option (Json × List Char)
  | 0, _ => none
  | _ + 1, [] => none
  | fuel + 1, c :: cs =>
    if c = 'n' then expectLit .null ['u', 'l', 'l'] cs
    else if c = 't' then expectLit (.bool true) ['r', 'u', 'e'] cs
    else if c = 'f' then expectLit (.bool false) ['a', 'l', 's', 'e'] cs
    else if c = '"' then
      (parseStrChars cs).map (fun p => (.str (String.mk p.1), p.2))
    else if c = '[' then
      match cs with
      | [] => none
      | d :: cs2 =>
        if d = ']' then some (.arr [], cs2)
        else (parseArrElems fuel (d :: cs2)).map (fun p => (.arr p.1, p.2))
    else if c = lbraceChar then
      match cs with
      | [] => none
      | d :: cs2 =>
        if d = rbraceChar then some (.obj [], cs2)
        else (parseObjMembers fuel (d :: cs2)).map (fun p => (.obj p.1, p.2))
    else parseNumTok (c :: cs)

/-- One or more array elements followed by the closing bracket. -/
def parseArrElems : Nat → List Char → Option (List Json × List Char)
  | 0, _ => none
  | fuel + 1, cs =>
    (parseJ fuel cs).bind fun p =>
      match p.2 with
      | [] => none
      | c :: cs3 =>
        if c = ']' then some ([p.1], cs3)
        else if c = ',' then
          match cs3 with
          | [] => none
          | c2 :: cs4 =>
            if c2 = ' ' then
              (parseArrElems fuel cs4).map (fun q => (p.1 :: q.1, q.2))
            else none
        else none

/-- One or more object members followed by the closing brace. -/
def parseObjMembers : Nat → List Char → Option (List (String × Json) × List Char)
  | 0, _ => none
  | fuel + 1, cs =>
    match cs with
    | [] => none
    | c0 :: cs1 =>
      if c0 = '"' then
        (parseStrChars cs1).bind fun kp =>
          match kp.2 with
          | [] => none
          | c1 :: cs3 =>
            if c1 = ':' then
              match cs3 with
              | [] => none
              | c2 :: cs4 =>
                if c2 = ' ' then
                  (parseJ fuel cs4).bind fun vp =>
                    match vp.2 with
                    | [] => none
                    | c :: cs6 =>
                      if c = rbraceChar then
                        some ([(String.mk kp.1, vp.1)], cs6)
                      else if c = ',' then
                        match cs6 with
                        | [] => none
                        | c3 :: cs7 =>
                          if c3 = ' ' then
                            (parseObjMembers fuel cs7).map
                              (fun q => ((String.mk kp.1, vp.1) :: q.1, q.2))
                          else none
                      else none
                else none
            else none
      else none
end

/-- Parse a complete JSON document: the whole input must be consumed. -/
def parseJson (cs : List Char) : Option Json :=
  match parseJ (cs.length + 1) cs with
  | some (j, []) => some j
  | _ => none

/-- Value of an int leaf. -/
def asInt : Json → Option Int
  | .int n => some n
  | _ => none

/-- Value of a float leaf. -/
def asNum : Json → Option Rat
  | .num q => some q
  | _ => none

/-- Value of a string leaf. -/
def asStr : Json → Option String
  | .str s => some s
  | _ => none

/-- Value of a bool leaf. -/
def asBool : Json → Option Bool
  | .bool b => some b
  | _ => none

/-- A str-to-str dict (`Dict[str, str]` fields). -/
def asStrMap : Json → Option (List (String × String))
  | .obj kvs => kvs.mapM (fun p => (asStr p.2).map (fun s => (p.1, s)))
  | _ => none

/-- A str-to-float dict (the confidence breakdown). -/
def asRatMap : Json → Option (List (String × Rat))
  | .obj kvs => kvs.mapM (fun p => (asNum p.2).map (fun q => (p.1, q)))
  | _ => none

/-- `data[k]` read as an int. -/
def intKey (j : Json) (k : String) : Option Int := (j.getKey k).bind asInt

/-- `data[k]` read as a float. -/
def numKey (j : Json) (k : String) : Option Rat := (j.getKey k).bind asNum

/-- `data[k]` read as a string. -/
def strKey (j : Json) (k : String) : Option String := (j.getKey k).bind asStr

/-- `data[k]` read as a bool. -/
def boolKey (j : Json) (k : String) : Option Bool := (j.getKey k).bind asBool

/-- `datetime.fromisoformat(data[k])`. -/
def dtKey (j : Json) (k : String) : Option PyDatetime :=
  (strKey j k).bind (fun s => fromisoformat s.data)

/-- `data.get(k)` for an `Optional[str]` field: a missing key or a null
value decodes to `None`. -/
def readOptStr (j : Json) (k : String) : Option (Option String) :=
  match j.getKey k with
  | none => some none
  | some .null => some none
  | some (.str s) => some (some s)
  | some _ => none

/-- `data.get(k)` for an `Optional[int]` field. -/
def readOptInt (j : Json) (k : String) : Option (Option Int) :=
  match j.getKey k with
  | none => some none
  | some .null => some none
  | some (.int n) => some (some n)
  | some _ => none

/-- `data.get(k)` for an `Optional[float]` field. -/
def readOptNum (j : Json) (k : String) : Option (Option Rat) :=
  match j.getKey k with
  | none => some none
  | some .null => some none
  | some (.num q) => some (some q)
  | some _ => none

/-- `data.get(k)` for an `Optional[bool]` field. -/
def readOptBool (j : Json) (k : String) : Option (Option Bool) :=
  match j.getKey k with
  | none => some none
  | some .null => some none
  | some (.bool b) => some (some b)
  | some _ => none

/-- `data.get(k, default)` for a string field with a default. -/
def readStrD (j : Json) (k : String) (dflt : String) : Option String :=
  match j.getKey k with
  | none => some dflt
  | some (.str s) => some s
  | some _ => none

/-- `data.get(k, 0)` for an int field with a default. -/
def readIntD (j : Json) (k : String) (dflt : Int) : Option Int :=
  match j.getKey k with
  | none => some dflt
  | some (.int n) => some n
  | some _ => none

/-- `data.get(k, [])` followed by an element-wise decode. -/
def readArrD {α : Type} (j : Json) (k : String) (f : Json → Option α) :
    Option (List α) :=
  match j.getKey k with
  | none => some []
  | some (.arr xs) => xs.mapM f
  | some _ => none

/-- `data.get(k, {})` for a str-to-str dict field. -/
def readStrMapD (j : Json) (k : String) : Option (List (String × String)) :=
  match j.getKey k with
  | none => some []
  | some v => asStrMap v

/-- `data.get(k, {})` for a str-to-float dict field. -/
def readRatMapD (j : Json) (k : String) : Option (List (String × Rat)) :=
  match j.getKey k with
  | none => some []
  | some v => asRatMap v

/-- `X.from_dict(data[k]) if data.get(k) else None` — the truthiness
guard of the nested-object fields. -/
def readTruthy {α : Type} (j : Json) (k : String) (f : Json → Option α) :
    Option (Option α) :=
  match j.getKey k with
  | none => some none
  | some v => if v.truthy then (f v).map some else some none

/-- An `Optional[str]` encoded by `to_dict` (None becomes null). -/
def optStrJson : Option String → Json
  | none => .null
  | some s => .str s

/-- An `Optional[int]` encoded by `to_dict`. -/
def optIntJson : Option Int → Json
  | none => .null
  | some n => .int n

/-- An `Optional[float]` encoded by `to_dict`. -/
def optNumJson : Option Rat → Json
  | none => .null
  | some q => .num q

/-- An `Optional[bool]` encoded by `to_dict`. -/
def optBoolJson : Option Bool → Json
  | none => .null
  | some b => .bool b

namespace Schemas

/-- `PPEViolationType` (IntEnum). -/
inductive PPEViolationType where
  | unspecified | no_helmet | no_safety_vest | no_safety_glasses
  | no_gloves | no_safety_boots | no_ear_protection | no_face_mask
  deriving DecidableEq, Repr

/-- The `.value` of the enum member. -/
def PPEViolationType.toInt : PPEViolationType → Int
  | .unspecified => 0
  | .no_helmet => 1
  | .no_safety_vest => 2
  | .no_safety_glasses => 3
  | .no_gloves => 4
  | .no_safety_boots => 5
  | .no_ear_protection => 6
  | .no_face_mask => 7

/-- `PPEViolationType(n)`: the member with that value, or a ValueError
(None) for an unknown value. -/
def PPEViolationType.ofInt : Int → Option PPEViolationType
  | 0 => some .unspecified
  | 1 => some .no_helmet
  | 2 => some .no_safety_vest
  | 3 => some .no_safety_glasses
  | 4 => some .no_gloves
  | 5 => some .no_safety_boots
  | 6 => some .no_ear_protection
  | 7 => some .no_face_mask
  | _ => none

/-- `ActivityType` (IntEnum). -/
inductive ActivityType where
  | unspecified | walking | standing | operating_machinery | lifting
  | climbing | running | falling | reaching | carrying
  deriving DecidableEq, Repr

/-- The `.value` of the enum member. -/
def ActivityType.toInt : ActivityType → Int
  | .unspecified => 0
  | .walking => 1
  | .standing => 2
  | .operating_machinery => 3
  | .lifting => 4
  | .climbing => 5
  | .running => 6
  | .falling => 7
  | .reaching => 8
  | .carrying => 9

/-- `ActivityType(n)`. -/
def ActivityType.ofInt : Int → Option ActivityType
  | 0 => some .unspecified
  | 1 => some .walking
  | 2 => some .standing
  | 3 => some .operating_machinery
  | 4 => some .lifting
  | 5 => some .climbing
  | 6 => some .running
  | 7 => some .falling
  | 8 => some .reaching
  | 9 => some .carrying
  | _ => none

/-- `AlertSeverity` (IntEnum). -/
inductive AlertSeverity where
  | unspecified | info | warning | critical | emergency
  deriving DecidableEq, Repr

/-- The `.value` of the enum member. -/
def AlertSeverity.toInt : AlertSeverity → Int
  | .unspecified => 0
  | .info => 1
  | .warning => 2
  | .critical => 3
  | .emergency => 4

/-- `AlertSeverity(n)`. -/
def AlertSeverity.ofInt : Int → Option AlertSeverity
  | 0 => some .unspecified
  | 1 => some .info
  | 2 => some .warning
  | 3 => some .critical
  | 4 => some .emergency
  | _ => none

/-- `AlertType` (IntEnum). -/
inductive AlertType where
  | unspecified | ppe_violation | ppe_missing | unsafe_activity
  | restricted_zone_entry | fall_detected | unusual_inactivity
  | hazard_detected | equipment_malfunction | device_low_battery
  | device_offline | device_error | pattern_detected | threshold_exceeded
  deriving DecidableEq, Repr

/-- The `.value` of the enum member. -/
def AlertType.toInt : AlertType → Int
  | .unspecified => 0
  | .ppe_violation => 1
  | .ppe_missing => 2
  | .unsafe_activity => 3
  | .restricted_zone_entry => 4
  | .fall_detected => 5
  | .unusual_inactivity => 6
  | .hazard_detected => 7
  | .equipment_malfunction => 8
  | .device_low_battery => 9
  | .device_offline => 10
  | .device_error => 11
  | .pattern_detected => 12
  | .threshold_exceeded => 13

/-- `AlertType(n)`. -/
def AlertType.ofInt : Int → Option AlertType
  | 0 => some .unspecified
  | 1 => some .ppe_violation
  | 2 => some .ppe_missing
  | 3 => some .unsafe_activity
  | 4 => some .restricted_zone_entry
  | 5 => some .fall_detected
  | 6 => some .unusual_inactivity
  | 7 => some .hazard_detected
  | 8 => some .equipment_malfunction
  | 9 => some .device_low_battery
  | 10 => some .device_offline
  | 11 => some .device_error
  | 12 => some .pattern_detected
  | 13 => some .threshold_exceeded
  | _ => none

/-- `AlertStatus` (IntEnum). -/
inductive AlertStatus where
  | unspecified | new | acknowledged | in_progress | resolved
  | dismissed | escalated
  deriving DecidableEq, Repr

/-- The `.value` of the enum member. -/
def AlertStatus.toInt : AlertStatus → Int
  | .unspecified => 0
  | .new => 1
  | .acknowledged => 2
  | .in_progress => 3
  | .resolved => 4
  | .dismissed => 5
  | .escalated => 6

/-- `AlertStatus(n)`. -/
def AlertStatus.ofInt : Int → Option AlertStatus
  | 0 => some .unspecified
  | 1 => some .new
  | 2 => some .acknowledged
  | 3 => some .in_progress
  | 4 => some .resolved
  | 5 => some .dismissed
  | 6 => some .escalated
  | _ => none

/-- `schemas.BoundingBox` (normalised corner box). -/
structure BoundingBox where
  x_min : Rat
  y_min : Rat
  x_max : Rat
  y_max : Rat
  deriving DecidableEq, Repr

/-- `BoundingBox.to_dict`. -/
def BoundingBox.to_dict (b : BoundingBox) : Json :=
  .obj [("x_min", .num b.x_min), ("y_min", .num b.y_min),
        ("x_max", .num b.x_max), ("y_max", .num b.y_max)]

/-- `BoundingBox.from_dict`. -/
def BoundingBox.from_dict (j : Json) : Option BoundingBox := do
  let x1 ← numKey j "x_min"
  let y1 ← numKey j "y_min"
  let x2 ← numKey j "x_max"
  let y2 ← numKey j "y_max"
  pure ⟨x1, y1, x2, y2⟩

/-- `schemas.ConfidenceScore`. -/
structure ConfidenceScore where
  overall : Rat
  breakdown : List (String × Rat)
  deriving DecidableEq, Repr

/-- `ConfidenceScore.to_dict`. -/
def ConfidenceScore.to_dict (c : ConfidenceScore) : Json :=
  .obj [("overall", .num c.overall),
        ("breakdown", .obj (c.breakdown.map (fun p => (p.1, .num p.2))))]

/-- `ConfidenceScore.from_dict`. -/
def ConfidenceScore.from_dict (j : Json) : Option ConfidenceScore := do
  let ov ← numKey j "overall"
  let bd ← readRatMapD j "breakdown"
  pure ⟨ov, bd⟩

/-- `schemas.PPEViolation`. -/
structure PPEViolation where
  violation_type : PPEViolationType
  bounding_box : BoundingBox
  confidence : ConfidenceScore
  worker_id : Option String
  deriving DecidableEq, Repr

/-- `PPEViolation.to_dict`. -/
def PPEViolation.to_dict (v : PPEViolation) : Json :=
  .obj [("violation_type", .int v.violation_type.toInt),
        ("bounding_box", v.bounding_box.to_dict),
        ("confidence", v.confidence.to_dict),
        ("worker_id", optStrJson v.worker_id)]

/-- `PPEViolation.from_dict`. -/
def PPEViolation.from_dict (j : Json) : Option PPEViolation := do
  let vt ← (intKey j "violation_type").bind PPEViolationType.ofInt
  let bb ← (j.getKey "bounding_box").bind BoundingBox.from_dict
  let c ← (j.getKey "confidence").bind ConfidenceScore.from_dict
  let w ← readOptStr j "worker_id"
  pure ⟨vt, bb, c, w⟩

/-- `schemas.ActivityDetection`. -/
structure ActivityDetection where
  activity_type : ActivityType
  bounding_box : BoundingBox
  confidence : ConfidenceScore
  duration_ms : Option Int
  worker_id : Option String
  deriving DecidableEq, Repr

/-- `ActivityDetection.to_dict`. -/
def ActivityDetection.to_dict (a : ActivityDetection) : Json :=
  .obj [("activity_type", .int a.activity_type.toInt),
        ("bounding_box", a.bounding_box.to_dict),
        ("confidence", a.confidence.to_dict),
        ("duration_ms", optIntJson a.duration_ms),
        ("worker_id", optStrJson a.worker_id)]

/-- `ActivityDetection.from_dict`. -/
def ActivityDetection.from_dict (j : Json) : Option ActivityDetection := do
  let at2 ← (intKey j "activity_type").bind ActivityType.ofInt
  let bb ← (j.getKey "bounding_box").bind BoundingBox.from_dict
  let c ← (j.getKey "confidence").bind ConfidenceScore.from_dict
  let dur ← readOptInt j "duration_ms"
  let w ← readOptStr j "worker_id"
  pure ⟨at2, bb, c, dur, w⟩

/-- `schemas.Zone`. -/
structure Zone where
  zone_id : String
  zone_name : String
  zone_type : String
  required_ppe : List PPEViolationType
  deriving DecidableEq, Repr

/-- `Zone.to_dict`. -/
def Zone.to_dict (z : Zone) : Json :=
  .obj [("zone_id", .str z.zone_id), ("zone_name", .str z.zone_name),
        ("zone_type", .str z.zone_type),
        ("required_ppe", .arr (z.required_ppe.map (fun p => .int p.toInt)))]

/-- `Zone.from_dict`. -/
def Zone.from_dict (j : Json) : Option Zone := do
  let zi ← strKey j "zone_id"
  let zn ← strKey j "zone_name"
  let zt ← strKey j "zone_type"
  let rp ← readArrD j "required_ppe" (fun x => (asInt x).bind PPEViolationType.ofInt)
  pure ⟨zi, zn, zt, rp⟩

/-- `schemas.DetectionEvent`. -/
structure DetectionEvent where
  event_id : String
  frame_id : String
  device_id : String
  timestamp : PyDatetime
  model_id : String
  model_version : String
  processing_latency_ms : Int
  ppe_violations : List PPEViolation
  activity_detections : List ActivityDetection
  zone : Option Zone
  metadata : List (String × String)
  deriving DecidableEq, Repr

/-- `DetectionEvent.to_dict`. -/
def DetectionEvent.to_dict (e : DetectionEvent) : Json :=
  .obj [("event_id", .str e.event_id),
        ("frame_id", .str e.frame_id),
        ("device_id", .str e.device_id),
        ("timestamp", .str (String.mk (isoformat e.timestamp))),
        ("model_id", .str e.model_id),
        ("model_version", .str e.model_version),
        ("processing_latency_ms", .int e.processing_latency_ms),
        ("ppe_violations", .arr (e.ppe_violations.map PPEViolation.to_dict)),
        ("activity_detections",
          .arr (e.activity_detections.map ActivityDetection.to_dict)),
        ("zone", match e.zone with | none => .null | some z => z.to_dict),
        ("metadata", .obj (e.metadata.map (fun p => (p.1, .str p.2))))]

/-- `DetectionEvent.from_dict`. -/
def DetectionEvent.from_dict (j : Json) : Option DetectionEvent := do
  let ei ← strKey j "event_id"
  let fi ← strKey j "frame_id"
  let di ← strKey j "device_id"
  let ts ← dtKey j "timestamp"
  let mi ← strKey j "model_id"
  let mv ← strKey j "model_version"
  let pl ← intKey j "processing_latency_ms"
  let pv ← readArrD j "ppe_violations" PPEViolation.from_dict
  let ad ← readArrD j "activity_detections" ActivityDetection.from_dict
  let z ← readTruthy j "zone" Zone.from_dict
  let md ← readStrMapD j "metadata"
  pure ⟨ei, fi, di, ts, mi, mv, pl, pv, ad, z, md⟩

/-- `DetectionEvent.to_json` (the JSON text). -/
def DetectionEvent.to_json (e : DetectionEvent) : String :=
  String.mk (dumps e.to_dict)

/-- `DetectionEvent.to_bytes` (UTF-8 of the text, as its characters). -/
def DetectionEvent.to_bytes (e : DetectionEvent) : List Char :=
  e.to_json.data

/-- `DetectionEvent.from_json`. -/
def DetectionEvent.from_json (s : String) : Option DetectionEvent :=
  (parseJson s.data).bind DetectionEvent.from_dict

/-- `DetectionEvent.from_bytes`. -/
def DetectionEvent.from_bytes (bs : List Char) : Option DetectionEvent :=
  DetectionEvent.from_json (String.mk bs)

/-- `schemas.GeoLocation`. -/
structure GeoLocation where
  latitude : Rat
  longitude : Rat
  accuracy : Rat
  altitude : Option Rat
  deriving DecidableEq, Repr

/-- `GeoLocation.to_dict`. -/
def GeoLocation.to_dict (g : GeoLocation) : Json :=
  .obj [("latitude", .num g.latitude), ("longitude", .num g.longitude),
        ("accuracy", .num g.accuracy), ("altitude", optNumJson g.altitude)]

/-- `GeoLocation.from_dict`. -/
def GeoLocation.from_dict (j : Json) : Option GeoLocation := do
  let la ← numKey j "latitude"
  let lo ← numKey j "longitude"
  let ac ← numKey j "accuracy"
  let al ← readOptNum j "altitude"
  pure ⟨la, lo, ac, al⟩

/-- `schemas.IMUData`. -/
structure IMUData where
  accel_x : Rat
  accel_y : Rat
  accel_z : Rat
  gyro_x : Rat
  gyro_y : Rat
  gyro_z : Rat
  mag_x : Option Rat
  mag_y : Option Rat
  mag_z : Option Rat
  deriving DecidableEq, Repr

/-- `IMUData.to_dict`. -/
def IMUData.to_dict (m : IMUData) : Json :=
  .obj [("accel_x", .num m.accel_x), ("accel_y", .num m.accel_y),
        ("accel_z", .num m.accel_z), ("gyro_x", .num m.gyro_x),
        ("gyro_y", .num m.gyro_y), ("gyro_z", .num m.gyro_z),
        ("mag_x", optNumJson m.mag_x), ("mag_y", optNumJson m.mag_y),
        ("mag_z", optNumJson m.mag_z)]

/-- `IMUData.from_dict`. -/
def IMUData.from_dict (j : Json) : Option IMUData := do
  let ax ← numKey j "accel_x"
  let ay ← numKey j "accel_y"
  let az ← numKey j "accel_z"
  let gx ← numKey j "gyro_x"
  let gy ← numKey j "gyro_y"
  let gz ← numKey j "gyro_z"
  let mx ← readOptNum j "mag_x"
  let my ← readOptNum j "mag_y"
  let mz ← readOptNum j "mag_z"
  pure ⟨ax, ay, az, gx, gy, gz, mx, my, mz⟩

/-- `schemas.DeviceHealth`. -/
structure DeviceHealth where
  battery_level : Int
  temperature_celsius : Rat
  storage_remaining_bytes : Int
  wifi_signal_dbm : Int
  is_charging : Bool
  deriving DecidableEq, Repr

/-- `DeviceHealth.to_dict`. -/
def DeviceHealth.to_dict (d : DeviceHealth) : Json :=
  .obj [("battery_level", .int d.battery_level),
        ("temperature_celsius", .num d.temperature_celsius),
        ("storage_remaining_bytes", .int d.storage_remaining_bytes),
        ("wifi_signal_dbm", .int d.wifi_signal_dbm),
        ("is_charging", .bool d.is_charging)]

/-- `DeviceHealth.from_dict`. -/
def DeviceHealth.from_dict (j : Json) : Option DeviceHealth := do
  let bl ← intKey j "battery_level"
  let tc ← numKey j "temperature_celsius"
  let sr ← intKey j "storage_remaining_bytes"
  let ws ← intKey j "wifi_signal_dbm"
  let ic ← boolKey j "is_charging"
  pure ⟨bl, tc, sr, ws, ic⟩

/-- `schemas.FrameMetadata`. -/
structure FrameMetadata where
  frame_id : String
  device_id : String
  capture_timestamp : PyDatetime
  upload_timestamp : PyDatetime
  width : Int
  height : Int
  frame_number : Int
  frame_data_uri : String
  frame_size_bytes : Int
  session_id : String
  device_type : String
  device_firmware_version : String
  resolution : String
  format : String
  location : Option GeoLocation
  imu_data : Option IMUData
  device_health : Option DeviceHealth
  brightness : Option Rat
  blur_score : Option Rat
  is_occluded : Option Bool
  metadata : List (String × String)
  deriving DecidableEq, Repr

/-- `FrameMetadata.to_dict` (source key order). -/
def FrameMetadata.to_dict (f : FrameMetadata) : Json :=
  .obj [("frame_id", .str f.frame_id),
        ("device_id", .str f.device_id),
        ("device_type", .str f.device_type),
        ("device_firmware_version", .str f.device_firmware_version),
        ("capture_timestamp", .str (String.mk (isoformat f.capture_timestamp))),
        ("upload_timestamp", .str (String.mk (isoformat f.upload_timestamp))),
        ("resolution", .str f.resolution),
        ("format", .str f.format),
        ("width", .int f.width),
        ("height", .int f.height),
        ("frame_number", .int f.frame_number),
        ("frame_data_uri", .str f.frame_data_uri),
        ("frame_size_bytes", .int f.frame_size_bytes),
        ("session_id", .str f.session_id),
        ("location", match f.location with | none => .null | some g => g.to_dict),
        ("imu_data", match f.imu_data with | none => .null | some m => m.to_dict),
        ("device_health",
          match f.device_health with | none => .null | some d => d.to_dict),
        ("brightness", optNumJson f.brightness),
        ("blur_score", optNumJson f.blur_score),
        ("is_occluded", optBoolJson f.is_occluded),
        ("metadata", .obj (f.metadata.map (fun p => (p.1, .str p.2))))]

/-- First half of the fields read by `FrameMetadata.from_dict` (the
decoder is split in two only to keep the generated code small; the
combined decoder below is the model of the source function). -/
def FrameMetadata.fromDictA (j : Json) :
    Option (String × String × String × String × PyDatetime × PyDatetime ×
      String × String × Int × Int × Int) := do
  let fi ← strKey j "frame_id"
  let di ← strKey j "device_id"
  let dt ← readStrD j "device_type" "SMART_GLASSES_V1"
  let dfv ← readStrD j "device_firmware_version" "1.0.0"
  let ct ← dtKey j "capture_timestamp"
  let ut ← dtKey j "upload_timestamp"
  let res ← readStrD j "resolution" "1080P"
  let fo ← readStrD j "format" "JPEG"
  let w ← intKey j "width"
  let h ← intKey j "height"
  let fn ← intKey j "frame_number"
  pure (fi, di, dt, dfv, ct, ut, res, fo, w, h, fn)

/-- Second half of the fields read by `FrameMetadata.from_dict`. -/
def FrameMetadata.fromDictB (j : Json) :
    Option (String × Int × String × Option GeoLocation × Option IMUData ×
      Option DeviceHealth × Option Rat × Option Rat × Option Bool ×
      List (String × String)) := do
  let fdu ← strKey j "frame_data_uri"
  let fsb ← intKey j "frame_size_bytes"
  let si ← strKey j "session_id"
  let loc ← readTruthy j "location" GeoLocation.from_dict
  let imu ← readTruthy j "imu_data" IMUData.from_dict
  let dh ← readTruthy j "device_health" DeviceHealth.from_dict
  let br ← readOptNum j "brightness"
  let bs ← readOptNum j "blur_score"
  let io2 ← readOptBool j "is_occluded"
  let md ← readStrMapD j "metadata"
  pure (fdu, fsb, si, loc, imu, dh, br, bs, io2, md)

/-- `FrameMetadata.from_dict`. -/
def FrameMetadata.from_dict (j : Json) : Option FrameMetadata :=
  match FrameMetadata.fromDictA j, FrameMetadata.fromDictB j with
  | some (fi, di, dt, dfv, ct, ut, res, fo, w, h, fn),
    some (fdu, fsb, si, loc, imu, dh, br, bs, io2, md) =>
    some ⟨fi, di, ct, ut, w, h, fn, fdu, fsb, si, dt, dfv, res, fo,
          loc, imu, dh, br, bs, io2, md⟩
  | _, _ => none

/-- `FrameMetadata.to_json`. -/
def FrameMetadata.to_json (f : FrameMetadata) : String :=
  String.mk (dumps f.to_dict)

/-- `FrameMetadata.to_bytes`. -/
def FrameMetadata.to_bytes (f : FrameMetadata) : List Char :=
  f.to_json.data

/-- `FrameMetadata.from_json`. -/
def FrameMetadata.from_json (s : String) : Option FrameMetadata :=
  (parseJson s.data).bind FrameMetadata.from_dict

/-- `FrameMetadata.from_bytes`. -/
def FrameMetadata.from_bytes (bs : List Char) : Option FrameMetadata :=
  FrameMetadata.from_json (String.mk bs)

/-- `schemas.Alert`. -/
structure Alert where
  alert_id : String
  alert_type : AlertType
  severity : AlertSeverity
  status : AlertStatus
  title : String
  description : String
  created_at : PyDatetime
  updated_at : PyDatetime
  device_id : String
  rule_id : String
  priority_score : Int
  worker_id : Option String
  expires_at : Option PyDatetime
  source_detection_ids : List String
  tags : List String
  metadata : List (String × String)
  deriving DecidableEq, Repr

/-- `Alert.to_dict` (source key order). -/
def Alert.to_dict (a : Alert) : Json :=
  .obj [("alert_id", .str a.alert_id),
        ("alert_type", .int a.alert_type.toInt),
        ("severity", .int a.severity.toInt),
        ("status", .int a.status.toInt),
        ("title", .str a.title),
        ("description", .str a.description),
        ("created_at", .str (String.mk (isoformat a.created_at))),
        ("updated_at", .str (String.mk (isoformat a.updated_at))),
        ("expires_at",
          match a.expires_at with
          | none => .null
          | some d => .str (String.mk (isoformat d))),
        ("device_id", .str a.device_id),
        ("worker_id", optStrJson a.worker_id),
        ("rule_id", .str a.rule_id),
        ("priority_score", .int a.priority_score),
        ("source_detection_ids", .arr (a.source_detection_ids.map (.str ·))),
        ("tags", .arr (a.tags.map (.str ·))),
        ("metadata", .obj (a.metadata.map (fun p => (p.1, .str p.2))))]

/-- First half of the fields read by `Alert.from_dict` (split only to
keep the generated code small; the combined decoder below is the model of
the source function). -/
def Alert.fromDictA (j : Json) :
    Option (String × AlertType × AlertSeverity × AlertStatus × String ×
      String × PyDatetime × PyDatetime) := do
  let ai ← strKey j "alert_id"
  let ty ← (intKey j "alert_type").bind AlertType.ofInt
  let sev ← (intKey j "severity").bind AlertSeverity.ofInt
  let st ← (intKey j "status").bind AlertStatus.ofInt
  let ti ← strKey j "title"
  let de ← strKey j "description"
  let ca ← dtKey j "created_at"
  let ua ← dtKey j "updated_at"
  pure (ai, ty, sev, st, ti, de, ca, ua)

/-- Second half of the fields read by `Alert.from_dict`. -/
def Alert.fromDictB (j : Json) :
    Option (Option PyDatetime × String × Option String × String × Int ×
      List String × List String × List (String × String)) := do
  let ea ← readTruthy j "expires_at"
    (fun v => (asStr v).bind (fun s => fromisoformat s.data))
  let di ← strKey j "device_id"
  let w ← readOptStr j "worker_id"
  let ri ← strKey j "rule_id"
  let ps ← readIntD j "priority_score" 0
  let sd ← readArrD j "source_detection_ids" asStr
  let tg ← readArrD j "tags" asStr
  let md ← readStrMapD j "metadata"
  pure (ea, di, w, ri, ps, sd, tg, md)

/-- `Alert.from_dict`. -/
def Alert.from_dict (j : Json) : Option Alert :=
  match Alert.fromDictA j, Alert.fromDictB j with
  | some (ai, ty, sev, st, ti, de, ca, ua),
    some (ea, di, w, ri, ps, sd, tg, md) =>
    some ⟨ai, ty, sev, st, ti, de, ca, ua, di, ri, ps, w, ea, sd, tg, md⟩
  | _, _ => none

/-- `Alert.to_json`. -/
def Alert.to_json (a : Alert) : String :=
  String.mk (dumps a.to_dict)

/-- `Alert.to_bytes`. -/
def Alert.to_bytes (a : Alert) : List Char :=
  a.to_json.data

/-- `Alert.from_json`. -/
def Alert.from_json (s : String) : Option Alert :=
  (parseJson s.data).bind Alert.from_dict

/-- `Alert.from_bytes`. -/
def Alert.from_bytes (bs : List Char) : Option Alert :=
  Alert.from_json (String.mk bs)

/-- The in-domain condition for the round-trip: every datetime carried by
the value has components in the ranges `datetime` itself enforces.  All
other fields are unconstrained. -/
def DetectionEvent.wf (e : DetectionEvent) : Prop :=
  e.timestamp.wf

/-- In-domain condition for `FrameMetadata`. -/
def FrameMetadata.wf (f : FrameMetadata) : Prop :=
  f.capture_timestamp.wf ∧ f.upload_timestamp.wf

/-- In-domain condition for `Alert`. -/
def Alert.wf (a : Alert) : Prop :=
  a.created_at.wf ∧ a.updated_at.wf ∧
  (∀ d, a.expires_at = some d → d.wf)

/-- Concrete values exercising the nested and optional fields. -/
def sampleBox : BoundingBox := ⟨1/10, 2/10, 3/10, 4/10⟩

def sampleConfidence : ConfidenceScore := ⟨9/10, [("helmet", 8/10)]⟩

def sampleViolation : PPEViolation :=
  ⟨.no_helmet, sampleBox, sampleConfidence, some "w1"⟩

def sampleActivity : ActivityDetection :=
  ⟨.lifting, sampleBox, sampleConfidence, some 120, none⟩

def sampleZone : Zone :=
  ⟨"z1", "north yard", "restricted", [.no_helmet, .no_gloves]⟩

def sampleTime : PyDatetime := ⟨2024, 3, 14, 15, 9, 26, 535897⟩

def sampleEvent : DetectionEvent :=
  ⟨"ev1", "fr1", "dev1", sampleTime, "yolo", "8.1", 42, [sampleViolation],
   [sampleActivity], some sampleZone, [("site", "hq")]⟩

def sampleGeo : GeoLocation := ⟨52, 13/2, 5/2, some 34⟩

def sampleImu : IMUData :=
  ⟨1/10, 2/10, 98/10, 0, 1/100, 0, some (1/2), none, some 0⟩

def sampleHealth : DeviceHealth := ⟨87, 37/2, 1000000, -55, false⟩

def sampleFrame : FrameMetadata :=
  ⟨"fr1", "dev1", sampleTime, ⟨2024, 3, 14, 15, 9, 27, 0⟩, 1920, 1080, 99,
   "s3://frame", 2048, "sess1", "SMART_GLASSES_V1", "1.0.0", "1080P", "JPEG",
   some sampleGeo, some sampleImu, some sampleHealth, some (1/2), none,
   some true, [("a", "b")]⟩

def sampleAlert : Alert :=
  ⟨"al1", .ppe_violation, .critical, .new, "No helmet",
   "worker without helmet", sampleTime, sampleTime, "dev1", "rule7", 80,
   some "w1", some ⟨2024, 3, 15, 0, 0, 0, 0⟩, ["ev1"], ["ppe", "urgent"],
   [("src", "cam")]⟩

end Schemas

/-!
## Theorems

Helper lemmas first, then one theorem per claim (with witnesses and
counterexamples where applicable).
-/

theorem getElem?_zip_pair {α β : Type} (l1 : List α) (l2 : List β) (i : Nat)
    (a : α) (b : β) (h1 : l1[i]? = some a) (h2 : l2[i]? = some b) :
    (l1.zip l2)[i]? = some (a, b) := by
  rw [List.getElem?_zip_eq_some]
  exact ⟨h1, h2⟩

theorem buildResults_ok_ids (Raw : Type) (parse : Raw → Nat → Nat → List Detection)
    (raws : List Raw) (triples : List (Image × String × Int)) :
    ∀ (idx : Nat) (rs : List DetectionResult),
    buildResults Raw parse raws triples idx = .ok rs →
    rs.map (fun r => (r.frame_id, r.timestamp_ms)) =
      triples.map (fun t => (t.2.1, t.2.2)) := by
  induction triples with
  | nil =>
    intro idx rs h
    simp only [buildResults, Except.ok.injEq] at h
    subst h
    simp
  | cons t rest ih =>
    intro idx rs h
    obtain ⟨img, fid, ts⟩ := t
    simp only [buildResults] at h
    cases hraw : raws[idx]? with
    | none => rw [hraw] at h; exact absurd h (by simp)
    | some raw =>
      rw [hraw] at h
      cases hrec : buildResults Raw parse raws rest (idx + 1) with
      | error e => rw [hrec] at h; exact absurd h (by simp)
      | ok rs2 =>
        rw [hrec] at h
        simp only [Except.ok.injEq] at h
        subst h
        simp only [List.map_cons]
        exact congrArg _ (ih (idx + 1) rs2 hrec)

theorem predict_ok_ids (Raw : Type) (isLoaded : Bool)
    (parse : Raw → Nat → Nat → List Detection) (raws : List Raw)
    (items : List BatchItem) (results : List DetectionResult)
    (hok : predict Raw isLoaded parse raws (items.map (·.image))
      (items.map (·.frame_id)) (items.map (·.timestamp_ms)) = .ok results) :
    results.map (fun r => (r.frame_id, r.timestamp_ms)) =
      items.map (fun it => (it.frame_id, it.timestamp_ms)) := by
  simp only [predict] at hok
  split at hok
  · exact absurd hok (by simp)
  · split at hok
    · exact absurd hok (by simp)
    · split at hok
      · rename_i hz
        simp only [List.length_map] at hz
        simp only [Except.ok.injEq] at hok
        subst hok
        rw [List.length_eq_zero] at hz
        subst hz
        simp
      · rw [List.zip_map', List.zip_map'] at hok
        have h2 := buildResults_ok_ids Raw parse raws _ 0 results hok
        rw [h2, List.map_map]
        rfl

/-- C1: for every successfully processed batch, the result list lines up
positionally with the submissions: submission `i` has its future resolved
with result `i`, whose frame id and timestamp equal those of submission
`i`; intra-batch order is preserved.  The hypothesis `hpend` says the
futures of the batch are still pending when the batch completes (the
normal case; an already-done future is skipped by the source). -/
theorem c1_result_correlation (Raw : Type) (isLoaded : Bool)
    (parse : Raw → Nat → Nat → List Detection) (raws : List Raw)
    (items : List BatchItem) (results : List DetectionResult)
    (hok : predict Raw isLoaded parse raws (items.map (·.image))
      (items.map (·.frame_id)) (items.map (·.timestamp_ms)) = .ok results)
    (hpend : ∀ it ∈ items, it.future = .pending) :
    results.length = items.length ∧
    ∀ i, i < items.length →
      ∃ r it, results[i]? = some r ∧ items[i]? = some it ∧
        (processBatch Raw isLoaded parse raws items)[i]? =
          some { it with future := .resolved r } ∧
        r.frame_id = it.frame_id ∧ r.timestamp_ms = it.timestamp_ms := by
  have hids := predict_ok_ids Raw isLoaded parse raws items results hok
  have hlen : results.length = items.length := by
    have := congrArg List.length hids
    simpa using this
  refine ⟨hlen, ?_⟩
  intro i hi
  have hri : i < results.length := by omega
  have hr : results[i]? = some (results.get ⟨i, hri⟩) :=
    List.getElem?_eq_some.mpr ⟨hri, rfl⟩
  set r := results.get ⟨i, hri⟩ with hrdef
  have hit : items[i]? = some (items.get ⟨i, hi⟩) :=
    List.getElem?_eq_some.mpr ⟨hi, rfl⟩
  set it := items.get ⟨i, hi⟩ with hitdef
  have hpair : r.frame_id = it.frame_id ∧ r.timestamp_ms = it.timestamp_ms := by
    have hmap := congrArg (fun l => l[i]?) hids
    simp only [List.getElem?_map] at hmap
    rw [hr] at hmap
    rw [show items[i]? = some it from hit] at hmap
    simp only [Option.map_some'] at hmap
    have := Option.some.inj hmap
    exact ⟨congrArg Prod.fst this, congrArg Prod.snd this⟩
  refine ⟨r, it, hr, hit, ?_, hpair⟩
  simp only [processBatch]
  rw [hok]
  rw [List.getElem?_map, getElem?_zip_pair items results i it r hit hr]
  have hfut : it.future = .pending := hpend it (List.get_mem items i hi)
  simp [hfut, FutureState.done]

/-- Witness for `c1_result_correlation` at a concrete two-item batch. -/
theorem c1_result_correlation_witness :
    ∃ r it,
      ([{ frame_id := "f0", timestamp_ms := 5,
          detections := [], image_width := 6, image_height := 4 },
        { frame_id := "f1", timestamp_ms := 7,
          detections := [], image_width := 3, image_height := 2 }]
        : List DetectionResult)[1]? = some r ∧
      ([{ image := ⟨4, 6⟩, frame_id := "f0", timestamp_ms := 5,
          future := .pending },
        { image := ⟨2, 3⟩, frame_id := "f1", timestamp_ms := 7,
          future := .pending }] : List BatchItem)[1]? = some it ∧
      (processBatch Nat true (fun _ _ _ => []) [0, 1]
        [{ image := ⟨4, 6⟩, frame_id := "f0", timestamp_ms := 5,
           future := .pending },
         { image := ⟨2, 3⟩, frame_id := "f1", timestamp_ms := 7,
           future := .pending }])[1]? =
        some { it with future := .resolved r } ∧
      r.frame_id = it.frame_id ∧ r.timestamp_ms = it.timestamp_ms := by
  have h := (c1_result_correlation Nat true (fun _ _ _ => []) [0, 1]
    [{ image := ⟨4, 6⟩, frame_id := "f0", timestamp_ms := 5, future := .pending },
     { image := ⟨2, 3⟩, frame_id := "f1", timestamp_ms := 7, future := .pending }]
    [{ frame_id := "f0", timestamp_ms := 5, detections := [],
       image_width := 6, image_height := 4 },
     { frame_id := "f1", timestamp_ms := 7, detections := [],
       image_width := 3, image_height := 2 }]
    (by rfl)
    (by intro it hmem; fin_cases hmem <;> rfl)).2 1 (by decide)
  exact h

theorem find?_append_of_some {α : Type} (p : α → Bool) (l1 l2 : List α)
    (a : α) (h : l1.find? p = some a) : (l1 ++ l2).find? p = some a := by
  induction l1 with
  | nil => simp at h
  | cons x xs ih =>
    rw [List.cons_append]
    by_cases hp : p x
    · rw [List.find?_cons_of_pos _ hp] at h ⊢; exact h
    · rw [List.find?_cons_of_neg _ hp] at h ⊢; exact ih h

theorem collectLoop_spec (m : Nat) (q : List Nat) :
    ∀ (acc : List Nat), acc.length ≤ m →
    collectLoop m q acc = (acc ++ q.take (m - acc.length), q.drop (m - acc.length)) := by
  induction q with
  | nil => intro acc hle; simp [collectLoop]
  | cons x q ih =>
    intro acc hle
    simp only [collectLoop]
    by_cases hlt : acc.length < m
    · rw [if_pos hlt]
      rw [ih (acc ++ [x]) (by simpa using hlt)]
      have hm : m - acc.length = (m - (acc ++ [x]).length) + 1 := by
        simp only [List.length_append, List.length_cons, List.length_nil]
        omega
      rw [hm, List.take_succ_cons, List.drop_succ_cons]
      simp
    · rw [if_neg hlt]
      have hm : m - acc.length = 0 := by omega
      rw [hm]
      simp

theorem collectBatch_spec (m : Nat) (q : List Nat) :
    collectBatch m q = (q.take m, q.drop m) := by
  rw [collectBatch, collectLoop_spec m q [] (by simp)]
  simp

theorem bstep_dispatched_mem (m : Nat) (s : BState) (e : BEvent)
    (b : List Nat) (hb : b ∈ (bstep m s e).dispatched) :
    b ∈ s.dispatched ∨ (1 ≤ b.length ∧ b.length ≤ m) := by
  cases e <;> simp only [bstep] at hb
  case submit => exact .inl hb
  case collect =>
    split at hb
    · split at hb
      · exact .inl hb
      · rename_i hne
        rw [collectBatch_spec] at hb hne
        simp only [List.mem_append, List.mem_singleton] at hb
        cases hb with
        | inl h => exact .inl h
        | inr h =>
          subst h
          refine .inr ⟨?_, List.length_take_le m s.queue⟩
          have : s.queue.take m ≠ [] := by simpa using hne
          have := List.length_pos.mpr this
          omega
    · exact .inl hb
  case finishBatch o =>
    split at hb
    · exact .inl hb
    · exact .inl hb
  case loopExit =>
    split at hb
    · exact .inl hb
    · exact .inl hb
  case stopSignal => exact .inl hb
  case stopFinish =>
    split at hb
    · exact .inl hb
    · exact .inl hb

theorem brun_dispatched_bound (m : Nat) (es : List BEvent) :
    ∀ (s : BState), (∀ b ∈ s.dispatched, 1 ≤ b.length ∧ b.length ≤ m) →
    ∀ b ∈ (brun m s es).dispatched, 1 ≤ b.length ∧ b.length ≤ m := by
  induction es with
  | nil => intro s hs; exact hs
  | cons e es ih =>
    intro s hs
    refine ih (bstep m s e) ?_
    intro b hb
    cases bstep_dispatched_mem m s e b hb with
    | inl h => exact hs b h
    | inr h => exact h

/-- C3: every batch handed to the detector contains between 1 and
`maxBatchSize` submissions and is taken from the head of the queue.  The
three conjuncts: (i) the collection loop pops exactly the first
`maxBatchSize` elements of the queue; (ii) when the loop is awake with a
non-empty queue, the dispatched batch is exactly `queue.take maxBatchSize`
and the remaining queue is `queue.drop maxBatchSize`; (iii) over every
event sequence from the started batcher, every dispatched batch `b` has
`1 ≤ length b ≤ maxBatchSize`. -/
theorem c3_batch_size_bounds :
    (∀ (m : Nat) (q : List Nat), collectBatch m q = (q.take m, q.drop m)) ∧
    (∀ (m : Nat) (s : BState),
      s.loopAlive = true → s.inFlight = [] → s.queue.take m ≠ [] →
      (bstep m s .collect).dispatched = s.dispatched ++ [s.queue.take m] ∧
      (bstep m s .collect).inFlight = s.queue.take m ∧
      (bstep m s .collect).queue = s.queue.drop m) ∧
    (∀ (m : Nat) (es : List BEvent),
      ∀ b ∈ (brun m BState.started es).dispatched,
        1 ≤ b.length ∧ b.length ≤ m) := by
  refine ⟨collectBatch_spec, ?_, ?_⟩
  · intro m s halive hinf hne
    simp only [bstep, collectBatch_spec]
    rw [if_pos ⟨by simp [halive], hinf⟩, if_neg hne]
    exact ⟨rfl, rfl, rfl⟩
  · intro m es
    exact brun_dispatched_bound m es BState.started (by simp [BState.started])

/-- Witness for `c3_batch_size_bounds` on a queue of three ids with
`maxBatchSize = 2`, and on a concrete submit-submit-collect trace. -/
theorem c3_batch_size_bounds_witness :
    (bstep 2 { running := true, loopAlive := true, queue := [7, 8, 9],
               inFlight := [], futures := [(7, .pending), (8, .pending), (9, .pending)],
               nextId := 10, dispatched := [] } .collect).dispatched = [[7, 8]] ∧
    1 ≤ ([0, 1] : List Nat).length ∧ ([0, 1] : List Nat).length ≤ 2 := by
  constructor
  · have h := (c3_batch_size_bounds.2.1 2
      { running := true, loopAlive := true, queue := [7, 8, 9],
        inFlight := [], futures := [(7, .pending), (8, .pending), (9, .pending)],
        nextId := 10, dispatched := [] } rfl rfl (by decide)).1
    simpa using h
  · exact c3_batch_size_bounds.2.2 2 [.submit, .submit, .collect] [0, 1] (by decide)

theorem brun_post_stop_pending (m : Nat) (es : List BEvent) :
    ∀ (s : BState), (∀ e ∈ es, e ≠ BEvent.stopFinish) →
    s.loopAlive = false → s.inFlight = [] →
    s.futures.find? (fun p => p.1 = 0) = some (0, .pending) →
    (brun m s es).loopAlive = false ∧ (brun m s es).inFlight = [] ∧
    (brun m s es).futures.find? (fun p => p.1 = 0) = some (0, FStatus.pending) := by
  induction es with
  | nil => intro s _ h1 h2 h3; exact ⟨h1, h2, h3⟩
  | cons e es ih =>
    intro s hno h1 h2 h3
    have hes : ∀ x ∈ es, x ≠ BEvent.stopFinish := fun x hx => hno x (.tail _ hx)
    have hstep : (bstep m s e).loopAlive = false ∧ (bstep m s e).inFlight = [] ∧
        (bstep m s e).futures.find? (fun p => p.1 = 0) = some (0, .pending) := by
      cases e with
      | submit =>
        refine ⟨h1, h2, ?_⟩
        simp only [bstep]
        exact find?_append_of_some _ s.futures _ _ h3
      | collect =>
        have : ¬ (s.loopAlive ∧ s.inFlight = []) := by simp [h1]
        simp only [bstep, if_neg this]
        exact ⟨h1, h2, h3⟩
      | finishBatch o =>
        simp only [bstep, if_pos h2]
        exact ⟨h1, h2, h3⟩
      | loopExit =>
        simp only [bstep]
        split
        · exact ⟨rfl, h2, h3⟩
        · exact ⟨h1, h2, h3⟩
      | stopSignal => exact ⟨h1, h2, h3⟩
      | stopFinish => exact absurd rfl (hno _ (.head _))
    exact ih (bstep m s e) hes hstep.1 hstep.2.1 hstep.2.2

/-- C2 (claim violated by the code): `submit` performs no check of
`_running`, so a submission accepted after `stop()` has returned is
enqueued onto a queue that no loop drains and that nothing ever cancels.
On the trace stop-then-submit, the accepted submission (id 0) is still
pending after `stop()` has returned, and it stays pending under every
continuation of the execution in which `stop()` is not called a second
time.  This contradicts the claimed invariant that every accepted
submission reaches a terminal state. -/
theorem c2_submit_after_stop_stays_pending :
    (brun 8 BState.started
        [.stopSignal, .loopExit, .stopFinish, .submit]).statusOf 0 =
      some FStatus.pending ∧
    ∀ (es : List BEvent), (∀ e ∈ es, e ≠ BEvent.stopFinish) →
      (brun 8 (brun 8 BState.started
          [.stopSignal, .loopExit, .stopFinish, .submit]) es).statusOf 0 =
        some FStatus.pending := by
  constructor
  · decide
  · intro es hno
    have h := brun_post_stop_pending 8 es
      (brun 8 BState.started [.stopSignal, .loopExit, .stopFinish, .submit])
      hno (by decide) (by decide) (by decide)
    simp only [BState.statusOf, h.2.2, Option.map_some']

/-- Witness for `c2_submit_after_stop_stays_pending`: the post-stop
submission is still pending after one further submit event. -/
theorem c2_submit_after_stop_stays_pending_witness :
    (brun 8 (brun 8 BState.started
        [.stopSignal, .loopExit, .stopFinish, .submit]) [.submit]).statusOf 0 =
      some FStatus.pending :=
  c2_submit_after_stop_stays_pending.2 [.submit] (by decide)

/-- C4 (claim violated by the code): `submit` after `stop()` does not fail
with any error — the source has no `_running` check and no `NotRunning`
error exists anywhere in the code base.  On the stop-then-submit trace the
submission is accepted: it sits in the queue and its future is pending
(not failed, not cancelled). -/
theorem c4_submit_after_stop_enqueues :
    (brun 8 BState.started
        [.stopSignal, .loopExit, .stopFinish, .submit]).queue = [0] ∧
    (brun 8 BState.started
        [.stopSignal, .loopExit, .stopFinish, .submit]).statusOf 0 =
      some FStatus.pending ∧
    (brun 8 BState.started
        [.stopSignal, .loopExit, .stopFinish, .submit]).nextId = 1 := by
  decide

/-- C6 counterexample: the detector raise is propagated to the futures
verbatim.  With the model not loaded, `predict` raises
`RuntimeError("Model not loaded. Call load() first.")` and
`_process_batch` fails the single future of the batch with exactly that
exception — which is not an `InferenceFailed` wrapper (no such class
exists in the source). -/
theorem c6_counterexample :
    processBatch Nat false (fun _ _ _ => []) []
      [{ image := ⟨4, 6⟩, frame_id := "f0", timestamp_ms := 5,
         future := .pending }] =
      [{ image := ⟨4, 6⟩, frame_id := "f0", timestamp_ms := 5,
         future := .failed
           (.runtimeError "Model not loaded. Call load() first.") }] ∧
    PyErr.isInferenceFailed
      (.runtimeError "Model not loaded. Call load() first.") = false := by
  exact ⟨rfl, rfl⟩

/-- C6 amended: when the detector raises `e` during a batch, every
not-yet-done future in that batch is failed with the raw exception `e`
itself (not an `InferenceFailed` wrapper), and the batch loop keeps
running: a failing batch neither kills the loop task nor stops the
batcher. -/
theorem c6_detector_raise_fails_batch_raw (Raw : Type) (isLoaded : Bool)
    (parse : Raw → Nat → Nat → List Detection) (raws : List Raw)
    (items : List BatchItem) (e : PyErr)
    (herr : predict Raw isLoaded parse raws (items.map (·.image))
      (items.map (·.frame_id)) (items.map (·.timestamp_ms)) = .error e) :
    processBatch Raw isLoaded parse raws items =
      items.map (fun it =>
        { it with future := if it.future.done then it.future else .failed e }) ∧
    ∀ (m : Nat) (s : BState) (pe : PyErr),
      (bstep m s (.finishBatch (.raises pe))).loopAlive = s.loopAlive ∧
      (bstep m s (.finishBatch (.raises pe))).running = s.running := by
  constructor
  · simp only [processBatch]
    rw [herr]
  · intro m s pe
    simp only [bstep]
    split
    · exact ⟨rfl, rfl⟩
    · exact ⟨rfl, rfl⟩

/-- Witness for `c6_detector_raise_fails_batch_raw` at a concrete
one-item batch with the model not loaded. -/
theorem c6_detector_raise_fails_batch_raw_witness :
    processBatch Nat false (fun _ _ _ => []) []
      [{ image := ⟨4, 6⟩, frame_id := "f1", timestamp_ms := 9,
         future := .pending }] =
      [{ image := ⟨4, 6⟩, frame_id := "f1", timestamp_ms := 9,
         future := .failed
           (.runtimeError "Model not loaded. Call load() first.") }] := by
  have h := (c6_detector_raise_fails_batch_raw Nat false (fun _ _ _ => []) []
    [{ image := ⟨4, 6⟩, frame_id := "f1", timestamp_ms := 9,
       future := .pending }]
    (.runtimeError "Model not loaded. Call load() first.") rfl).1
  simpa [FutureState.done] using h

/-- C9 counterexample: with `max_batch_size = 1` and the loop not yet
scheduled, eleven consecutive submits all get enqueued: the queue grows to
length 11 > 10 = 10 * maxBatchSize, and no submission is rejected (all
eleven futures exist and are pending). -/
theorem c9_counterexample :
    (brun 1 BState.started (List.replicate 11 .submit)).queue.length = 11 ∧
    10 * 1 < (brun 1 BState.started (List.replicate 11 .submit)).queue.length ∧
    (brun 1 BState.started (List.replicate 11 .submit)).futures.length = 11 ∧
    ∀ p ∈ (brun 1 BState.started (List.replicate 11 .submit)).futures,
      p.2 = FStatus.pending := by
  decide

/-- C9 amended: the batcher enforces no queue-capacity bound at all —
`submit` unconditionally appends the new submission to the queue and
registers a fresh pending future, for every state and every
`maxBatchSize`. -/
theorem c9_submit_never_rejects (m : Nat) (s : BState) :
    (bstep m s .submit).queue = s.queue ++ [s.nextId] ∧
    (bstep m s .submit).futures = s.futures ++ [(s.nextId, .pending)] ∧
    (bstep m s .submit).nextId = s.nextId + 1 :=
  ⟨rfl, rfl, rfl⟩

/-- C5 counterexample: with the producer connected and zero pending, a
`KafkaError` raised synchronously by `producer.send` makes
`publish_detection` return `false` — not `true` as the claim states for
the "otherwise" case — and the pending count has already been incremented
(and is never decremented on this path, since no callbacks were
registered). -/
theorem c5_counterexample :
    publishDetection
        { producer := some (), connected := true, pending := 0, maxPending := 10000 }
        (.raisesKafkaError "boom") =
      .ok (false,
        { producer := some (), connected := true, pending := 1, maxPending := 10000 }) ∧
    publishDetection
        { producer := some (), connected := true, pending := 0, maxPending := 10000 }
        (.raisesKafkaError "boom") ≠
      .ok (true,
        { producer := some (), connected := true, pending := 1, maxPending := 10000 }) := by
  refine ⟨rfl, fun hcontra => ?_⟩
  have hmap := congrArg (fun r => r.toOption.map Prod.fst) hcontra
  simp [publishDetection, Except.toOption] at hmap

/-- C5 amended: `publish_detection` raises the not-connected
`RuntimeError` when called before `connect`; returns `false` leaving the
state untouched when the pending count has reached `max_pending` (hence
the pending count never exceeds `max_pending`); otherwise increments
pending by one and returns `true` when the synchronous send enqueue
succeeds, but returns `false` (with pending still incremented) when the
send raises a `KafkaError` synchronously.  The delivery callbacks each
decrement pending, clamped at zero. -/
theorem c5_publish_behaviour (s : PubState) (o : SendOutcome) (msg : String) :
    (s.connected = false →
      publishDetection s o =
        .error (.runtimeError "Kafka producer not connected. Call connect() first.")) ∧
    (s.connected = true → s.producer = some () → s.maxPending ≤ s.pending →
      publishDetection s o = .ok (false, s)) ∧
    (s.connected = true → s.producer = some () → s.pending < s.maxPending →
      publishDetection s .accepted =
        .ok (true, { s with pending := s.pending + 1 }) ∧
      publishDetection s (.raisesKafkaError msg) =
        .ok (false, { s with pending := s.pending + 1 })) ∧
    (∀ (b : Bool) (s2 : PubState), publishDetection s o = .ok (b, s2) →
      s.pending ≤ s.maxPending → s2.pending ≤ s2.maxPending) ∧
    ((onSendSuccess s).pending = s.pending - 1 ∧
     (onSendError s).pending = s.pending - 1 ∧
     (s.pending = 0 → (onSendSuccess s).pending = 0 ∧ (onSendError s).pending = 0)) := by
  refine ⟨?_, ?_, ?_, ?_, rfl, rfl, ?_⟩
  · intro hc
    simp [publishDetection, hc]
  · intro hc hp hge
    simp [publishDetection, hc, hp, hge]
  · intro hc hp hlt
    have hnot : ¬ s.maxPending ≤ s.pending := Nat.not_le.mpr hlt
    constructor <;> simp [publishDetection, hc, hp, hnot]
  · intro b s2 hok hle
    simp only [publishDetection] at hok
    split at hok
    · exact absurd hok (by simp)
    · split at hok
      · simp only [Except.ok.injEq, Prod.mk.injEq] at hok
        rw [← hok.2]
        exact hle
      · rename_i hnot
        have hlt : s.pending < s.maxPending := Nat.not_le.mp (by
          intro hge
          exact hnot (by simpa using hge))
        cases o <;> simp only [Except.ok.injEq, Prod.mk.injEq] at hok <;>
          rw [← hok.2] <;> simpa using hlt
  · intro h0
    simp [onSendSuccess, onSendError, h0]

/-- Witness for `c5_publish_behaviour` on a connected producer with an
empty pending set and an accepted send. -/
theorem c5_publish_behaviour_witness :
    publishDetection
        { producer := some (), connected := true, pending := 0, maxPending := 10000 }
        .accepted =
      .ok (true,
        { producer := some (), connected := true, pending := 1, maxPending := 10000 }) :=
  ((c5_publish_behaviour
    { producer := some (), connected := true, pending := 0, maxPending := 10000 }
    .accepted "x").2.2.1 rfl rfl (by decide)).1

theorem pubReach_inv (s : PubState) (h : PubReach s) :
    (s.connected = false → s.producer = none ∧ s.pending = 0) ∧
    (s.connected = true → s.producer = some ()) := by
  induction h with
  | init => exact ⟨fun _ => ⟨rfl, rfl⟩, fun hc => by simp [PubState.init] at hc⟩
  | connect s s2 o hs hc ih =>
    cases o with
    | ok =>
      simp only [pubConnect] at hc
      split at hc
      · cases hc
        exact ih
      · cases hc
        exact ⟨fun hf => by simp at hf, fun _ => rfl⟩
    | noBrokers m =>
      simp only [pubConnect] at hc
      split at hc
      · cases hc
        exact ih
      · exact absurd hc (by simp)
  | publish s s2 o b hs hp ih =>
    simp only [publishDetection] at hp
    split at hp
    · exact absurd hp (by simp)
    · split at hp
      · simp only [Except.ok.injEq, Prod.mk.injEq] at hp
        rw [← hp.2]
        exact ih
      · rename_i hcond _
        have hc : s.connected = true := by
          by_contra hne
          exact hcond (.inl (by simpa using hne))
        have hprod : s.producer = some () := by
          rcases hps : s.producer with _ | u
          · exact absurd (.inr hps) hcond
          · cases u; rfl
        cases o <;> simp only [Except.ok.injEq, Prod.mk.injEq] at hp <;>
          rw [← hp.2] <;>
          exact ⟨fun hf => by simp [hc] at hf, fun _ => hprod⟩
  | cbSuccess s hs ih =>
    refine ⟨fun hf => ?_, fun ht => ih.2 ht⟩
    obtain ⟨h1, h2⟩ := ih.1 hf
    exact ⟨h1, by simp [onSendSuccess, h2]⟩
  | cbError s hs ih =>
    refine ⟨fun hf => ?_, fun ht => ih.2 ht⟩
    obtain ⟨h1, h2⟩ := ih.1 hf
    exact ⟨h1, by simp [onSendError, h2]⟩
  | disconnect s fr hs ih =>
    simp only [pubDisconnect]
    split
    · exact ih
    · exact ⟨fun _ => ⟨rfl, rfl⟩, fun hc => by simp at hc⟩

/-- C10: after `disconnect` returns the producer handle is cleared,
`is_connected` is false and the pending count is zero, whether or not the
flush or close raised (the `finally` block runs either way); on an
already-disconnected producer `disconnect` is a no-op, and a second
`disconnect` leaves the state unchanged. -/
theorem c10_disconnect_postcondition (s : PubState) (f f2 : Bool)
    (h : PubReach s) :
    (pubDisconnect s f).producer = none ∧
    (pubDisconnect s f).connected = false ∧
    (pubDisconnect s f).pending = 0 ∧
    (s.connected = false → pubDisconnect s f = s) ∧
    pubDisconnect (pubDisconnect s f) f2 = pubDisconnect s f := by
  have hinv := pubReach_inv s h
  cases hc : s.connected with
  | false =>
    obtain ⟨hprod, hpend⟩ := hinv.1 hc
    have hd : ∀ (g : Bool), pubDisconnect s g = s := by
      intro g
      simp only [pubDisconnect]
      rw [if_pos (Or.inr hprod)]
    rw [hd f, hd f2]
    exact ⟨hprod, hc, hpend, fun _ => rfl, rfl⟩
  | true =>
    have hprod := hinv.2 hc
    have hcond : ¬ (¬ s.connected ∨ s.producer = none) := by simp [hc, hprod]
    have hd : pubDisconnect s f =
        { s with producer := none, connected := false, pending := 0 } := by
      simp only [pubDisconnect]
      rw [if_neg hcond]
    rw [hd]
    refine ⟨rfl, rfl, rfl, (fun hf => ?_), ?_⟩
    · exact absurd hf (by simp [hc])
    · simp [pubDisconnect]

/-- Witness for `c10_disconnect_postcondition` at the reachable connected
state produced by a successful `connect` from the initial state, with the
flush raising. -/
theorem c10_disconnect_postcondition_witness :
    (pubDisconnect
      { producer := some (), connected := true, pending := 0, maxPending := 10000 }
      true).producer = none ∧
    (pubDisconnect
      { producer := some (), connected := true, pending := 0, maxPending := 10000 }
      true).connected = false ∧
    (pubDisconnect
      { producer := some (), connected := true, pending := 0, maxPending := 10000 }
      true).pending = 0 := by
  have hr : PubReach
      { producer := some (), connected := true, pending := 0, maxPending := 10000 } :=
    PubReach.connect PubState.init _ .ok PubReach.init rfl
  have h := c10_disconnect_postcondition _ true false hr
  exact ⟨h.1, h.2.1, h.2.2.1⟩

/-- C8 counterexample: auto-commit disabled, a single record at offset 0
whose handler raises, then shutdown.  The handler raised, yet the final
synchronous commit in the `finally` block of `run` commits the consumed
position 1, so offset 0 counts as committed and will not be redelivered
after a restart — contradicting the claim that a record whose handler
raised is never committed. -/
theorem c8_counterexample :
    (crun false [.record 0 false]).offsetCommitted 0 = true ∧
    (crun false [.record 0 false]).dlq = [0] ∧
    (crun false [.record 0 false]).committed = some 1 := by
  decide

/-- C8 amended: with auto-commit disabled, an in-loop (asynchronous)
commit is issued only after a handler invocation that returned
successfully — a record whose handler raised triggers no commit itself and
goes to the DLQ path — but commits always cover the whole consumed
position, and `run` issues an unconditional final synchronous commit at
shutdown, so a record whose handler raised can still end up committed. -/
theorem c8_commit_discipline (autoC : Bool) (s : CState) (o : Nat)
    (events : List CEvent) :
    cstep autoC s (.record o false) =
      { s with position := some (o + 1), dlq := s.dlq ++ [o] } ∧
    cstep false s (.record o true) =
      commitPosition { s with position := some (o + 1) } ∧
    crun false events = commitPosition (crunLoop false CState.start events) :=
  ⟨rfl, rfl, rfl⟩

theorem digitChar_isDigit (d : Nat) (h : d < 10) : (digitChar d).isDigit = true := by
  interval_cases d <;> decide

theorem digitChar_toNat (d : Nat) (h : d < 10) : (digitChar d).toNat - 48 = d := by
  interval_cases d <;> decide

theorem readFixedAux_printPad (k : Nat) :
    ∀ (acc n : Nat) (cs : List Char), n < 10 ^ k →
    readFixedAux k acc (printPad k n ++ cs) = some (acc * 10 ^ k + n, cs) := by
  induction k with
  | zero =>
    intro acc n cs h
    have hn : n = 0 := by omega
    subst hn
    simp [printPad, readFixedAux]
  | succ k ih =>
    intro acc n cs h
    have hpow : 0 < 10 ^ k := pow_pos (by omega) k
    have hd : n / 10 ^ k < 10 := by
      rw [Nat.div_lt_iff_lt_mul hpow]
      calc n < 10 ^ (k + 1) := h
        _ = 10 * 10 ^ k := by ring
    have hisd := digitChar_isDigit _ hd
    have htn := digitChar_toNat _ hd
    simp only [printPad, List.cons_append, readFixedAux, hisd, if_pos,
      List.append_eq]
    rw [htn, ih (acc * 10 + n / 10 ^ k) (n % 10 ^ k) cs (Nat.mod_lt _ hpow)]
    have hsplit : 10 ^ k * (n / 10 ^ k) + n % 10 ^ k = n := Nat.div_add_mod n (10 ^ k)
    have heq : (acc * 10 + n / 10 ^ k) * 10 ^ k + n % 10 ^ k = acc * 10 ^ (k + 1) + n := by
      nth_rewrite 3 [← hsplit]
      ring
    rw [heq]

theorem readFixed_printPad (k n : Nat) (cs : List Char) (h : n < 10 ^ k) :
    readFixed k (printPad k n ++ cs) = some (n, cs) := by
  rw [readFixed, readFixedAux_printPad k 0 n cs h]
  simp

theorem expectChar_cons (c d : Char) (cs : List Char) (h : d = c) :
    expectChar c (d :: cs) = some cs := by
  simp [expectChar, h]

theorem readFixed_printPad_nil (k n : Nat) (h : n < 10 ^ k) :
    readFixed k (printPad k n) = some (n, []) := by
  conv_lhs => rw [← List.append_nil (printPad k n)]
  exact readFixed_printPad k n [] h

theorem fromisoformat_isoformat (d : PyDatetime) (h : d.wf) :
    fromisoformat (isoformat d) = some d := by
  obtain ⟨y, mo, da, ho, mi, se, us⟩ := d
  obtain ⟨h1, h2, h3, h4, h5, h6, h7, h8, h9, h10⟩ := h
  simp only [PyDatetime.wf] at h1 h2 h3 h4 h5 h6 h7 h8 h9 h10
  have b1 : y < 10 ^ 4 := by calc y ≤ 9999 := h2
                                _ < 10 ^ 4 := by norm_num
  have b2 : mo < 10 ^ 2 := by calc mo ≤ 12 := h4
                                 _ < 10 ^ 2 := by norm_num
  have b3 : da < 10 ^ 2 := by calc da ≤ 31 := h6
                                 _ < 10 ^ 2 := by norm_num
  have b4 : ho < 10 ^ 2 := by calc ho ≤ 23 := h7
                                 _ < 10 ^ 2 := by norm_num
  have b5 : mi < 10 ^ 2 := by calc mi ≤ 59 := h8
                                 _ < 10 ^ 2 := by norm_num
  have b6 : se < 10 ^ 2 := by calc se ≤ 59 := h9
                                 _ < 10 ^ 2 := by norm_num
  have b7 : us < 10 ^ 6 := by calc us ≤ 999999 := h10
                                 _ < 10 ^ 6 := by norm_num
  by_cases hms : us = 0
  · subst hms
    simp only [isoformat, reduceIte, List.append_assoc, List.singleton_append,
      List.cons_append, List.nil_append, List.append_nil, fromisoformat,
      readFixed_printPad, readFixed_printPad_nil, b1, b2, b3, b4, b5, b6,
      Option.some_bind, expectChar_cons]
  · simp only [isoformat, hms, reduceIte, List.append_assoc, List.singleton_append,
      List.cons_append, List.nil_append, fromisoformat, readFixed_printPad,
      readFixed_printPad_nil, b1, b2, b3, b4, b5, b6, b7, Option.some_bind,
      expectChar_cons, List.append_nil]

theorem printNat_spec (n : Nat) :
    (∀ c ∈ printNat n, c.isDigit = true) ∧
    ∀ acc, (printNat n).foldl (fun a c => a * 10 + (c.toNat - 48)) acc =
      acc * 10 ^ (printNat n).length + n := by
  induction n using Nat.strong_induction_on with
  | _ n ih =>
    rw [printNat]
    by_cases h : n < 10
    · rw [dif_pos h]
      refine ⟨?_, ?_⟩
      · intro c hc
        rw [List.mem_singleton] at hc
        subst hc
        exact digitChar_isDigit n h
      · intro acc
        simp [digitChar_toNat n h]
    · rw [dif_neg h]
      have hlt : n / 10 < n := Nat.div_lt_self (by omega) (by omega)
      obtain ⟨ihd, ihf⟩ := ih (n / 10) hlt
      refine ⟨?_, ?_⟩
      · intro c hc
        rw [List.mem_append, List.mem_singleton] at hc
        cases hc with
        | inl hc => exact ihd c hc
        | inr hc => subst hc; exact digitChar_isDigit _ (Nat.mod_lt _ (by omega))
      · intro acc
        rw [List.foldl_append, ihf acc, List.length_append, List.length_singleton]
        simp only [List.foldl_cons, List.foldl_nil,
          digitChar_toNat _ (Nat.mod_lt n (show 0 < 10 by omega))]
        rw [pow_succ, ← mul_assoc]
        generalize acc * 10 ^ (printNat (n / 10)).length = m
        omega

theorem printNat_ne_nil (n : Nat) : printNat n ≠ [] := by
  rw [printNat]
  by_cases h : n < 10
  · rw [dif_pos h]; simp
  · rw [dif_neg h]; simp

theorem printNat_head (n : Nat) :
    ∃ c cs, printNat n = c :: cs ∧ c.isDigit = true := by
  cases hp : printNat n with
  | nil => exact absurd hp (printNat_ne_nil n)
  | cons c cs =>
    exact ⟨c, cs, rfl, (printNat_spec n).1 c (hp ▸ List.mem_cons_self c cs)⟩

theorem takeWhile_all_append (p : Char → Bool) (ds rest : List Char)
    (hall : ∀ c ∈ ds, p c = true)
    (hstop : ∀ c, rest.head? = some c → p c = false) :
    (ds ++ rest).takeWhile p = ds ∧ (ds ++ rest).dropWhile p = rest := by
  induction ds with
  | nil =>
    cases rest with
    | nil => simp
    | cons c t =>
      have := hstop c rfl
      simp [List.takeWhile, List.dropWhile, this]
  | cons d ds ih =>
    have hd := hall d (List.mem_cons_self d ds)
    obtain ⟨h1, h2⟩ := ih (fun c hc => hall c (List.mem_cons_of_mem d hc))
    simp [List.takeWhile, List.dropWhile, hd, h1, h2]

theorem readNat_printNat (n : Nat) (rest : List Char)
    (hstop : ∀ c, rest.head? = some c → c.isDigit = false) :
    readNat (printNat n ++ rest) = some (n, rest) := by
  obtain ⟨htw, hdw⟩ := takeWhile_all_append Char.isDigit (printNat n) rest
    (printNat_spec n).1 hstop
  rw [readNat]
  simp only [htw, hdw, List.isEmpty_eq_true]
  rw [if_neg (printNat_ne_nil n)]
  rw [(printNat_spec n).2 0]
  simp

theorem parseNumAbs_int (a : Nat) (rest : List Char)
    (hstop : ∀ c, rest.head? = some c → c.isDigit = false ∧ c ≠ '/') :
    parseNumAbs (printNat a ++ rest) = some (.int (a : Int), rest) := by
  have hr := readNat_printNat a rest (fun c hc => (hstop c hc).1)
  simp only [parseNumAbs, hr]
  cases rest with
  | nil => rfl
  | cons c r2 =>
    have := (hstop c rfl).2
    simp [this]

theorem parseNumAbs_rat (a b : Nat) (rest : List Char)
    (hstop : ∀ c, rest.head? = some c → c.isDigit = false) :
    parseNumAbs (printNat a ++ ('/' :: (printNat b ++ rest))) =
      some (.num (mkRat (a : Int) b), rest) := by
  have ha := readNat_printNat a ('/' :: (printNat b ++ rest))
    (fun c hc => by
      rw [List.head?_cons, Option.some.injEq] at hc
      subst hc
      decide)
  have hb := readNat_printNat b rest hstop
  simp only [parseNumAbs, ha, hb, reduceIte]

theorem parseNumTok_printInt (n : Int) (rest : List Char)
    (hstop : ∀ c, rest.head? = some c → c.isDigit = false ∧ c ≠ '/') :
    parseNumTok (printInt n ++ rest) = some (.int n, rest) := by
  by_cases hneg : n < 0
  · simp only [printInt, if_pos hneg, List.cons_append, parseNumTok, reduceIte,
      parseNumAbs_int n.natAbs rest hstop, Option.map_some', negJ]
    have hcast : -((n.natAbs : Int)) = n := by omega
    rw [hcast]
  · simp only [printInt, if_neg hneg]
    obtain ⟨c, cs, hc, hd⟩ := printNat_head n.natAbs
    have hcm : c ≠ '-' := by
      intro hcontra
      subst hcontra
      exact absurd hd (by decide)
    rw [hc, List.cons_append, parseNumTok, if_neg hcm, ← List.cons_append, ← hc,
      parseNumAbs_int n.natAbs rest hstop]
    have hcast : ((n.natAbs : Int)) = n := by omega
    rw [hcast]

theorem parseNumTok_printRat (q : Rat) (rest : List Char)
    (hstop : ∀ c, rest.head? = some c → c.isDigit = false ∧ c ≠ '/') :
    parseNumTok (printRat q ++ rest) = some (.num q, rest) := by
  have hstopd : ∀ c, rest.head? = some c → c.isDigit = false :=
    fun c hc => (hstop c hc).1
  by_cases hneg : q.num < 0
  · simp only [printRat, if_pos hneg, List.cons_append, List.append_assoc,
      List.singleton_append, List.nil_append, parseNumTok, reduceIte]
    rw [parseNumAbs_rat q.num.natAbs q.den rest hstopd]
    simp only [Option.map_some', negJ, Rat.neg_mkRat]
    have hcast : -((q.num.natAbs : Int)) = q.num := by omega
    rw [hcast, Rat.mkRat_self]
  · simp only [printRat, if_neg hneg, List.nil_append, List.append_assoc,
      List.singleton_append, List.cons_append]
    obtain ⟨c, cs, hc, hd⟩ := printNat_head q.num.natAbs
    have hcm : c ≠ '-' := by
      intro hcontra
      subst hcontra
      exact absurd hd (by decide)
    rw [hc, List.cons_append, parseNumTok, if_neg hcm, ← List.cons_append, ← hc,
      parseNumAbs_rat q.num.natAbs q.den rest hstopd]
    have hcast : ((q.num.natAbs : Int)) = q.num := by omega
    rw [hcast, Rat.mkRat_self]

theorem string_mk_data (s : String) : String.mk s.data = s := by
  cases s
  rfl

theorem parseStrChars_escape (ds rest : List Char) :
    parseStrChars (escapeChars ds ++ ('"' :: rest)) = some (ds, rest) := by
  induction ds with
  | nil =>
    rw [show escapeChars [] = [] from rfl, List.nil_append, parseStrChars.eq_def]
    simp
  | cons c cs ih =>
    by_cases hq : c = '"' ∨ c = '\\'
    · simp only [escapeChars, if_pos hq, List.cons_append, List.nil_append]
      rw [parseStrChars.eq_def]
      simp [ih]
    · push_neg at hq
      simp only [escapeChars, if_neg (by tauto : ¬ (c = '"' ∨ c = '\\')),
        List.cons_append, List.nil_append]
      rw [parseStrChars.eq_def]
      simp [hq.1, hq.2, ih]

theorem isDigit_not_special (c : Char) (h : c.isDigit = true) :
    c ≠ 'n' ∧ c ≠ 't' ∧ c ≠ 'f' ∧ c ≠ '"' ∧ c ≠ '[' ∧ c ≠ lbraceChar ∧
    c ≠ '-' ∧ c ≠ ']' ∧ c ≠ rbraceChar := by
  refine ⟨?_, ?_, ?_, ?_, ?_, ?_, ?_, ?_, ?_⟩ <;>
    (intro hh; subst hh; exact absurd h (by decide))

theorem printInt_head (n : Int) :
    ∃ c cs, printInt n = c :: cs ∧ (c = '-' ∨ c.isDigit = true) := by
  by_cases hn : n < 0
  · exact ⟨'-', printNat n.natAbs, by simp [printInt, hn], .inl rfl⟩
  · obtain ⟨c, cs, hc, hd⟩ := printNat_head n.natAbs
    exact ⟨c, cs, by simp [printInt, hn, hc], .inr hd⟩

theorem printRat_head (q : Rat) :
    ∃ c cs, printRat q = c :: cs ∧ (c = '-' ∨ c.isDigit = true) := by
  by_cases hn : q.num < 0
  · refine ⟨'-', printNat q.num.natAbs ++ ['/'] ++ printNat q.den, ?_, .inl rfl⟩
    simp [printRat, hn]
  · obtain ⟨c, cs, hc, hd⟩ := printNat_head q.num.natAbs
    refine ⟨c, cs ++ ['/'] ++ printNat q.den, ?_, .inr hd⟩
    simp [printRat, hn, hc, List.append_assoc]

theorem parseJ_num_dispatch (fuel : Nat) (c : Char) (cs : List Char)
    (h : c = '-' ∨ c.isDigit = true) :
    parseJ (fuel + 1) (c :: cs) = parseNumTok (c :: cs) := by
  have hs : c ≠ 'n' ∧ c ≠ 't' ∧ c ≠ 'f' ∧ c ≠ '"' ∧ c ≠ '[' ∧ c ≠ lbraceChar := by
    cases h with
    | inl h => subst h; exact ⟨by decide, by decide, by decide, by decide,
        by decide, by decide⟩
    | inr h =>
      obtain ⟨a1, a2, a3, a4, a5, a6, _, _, _⟩ := isDigit_not_special c h
      exact ⟨a1, a2, a3, a4, a5, a6⟩
  obtain ⟨h1, h2, h3, h4, h5, h6⟩ := hs
  simp only [parseJ, if_neg h1, if_neg h2, if_neg h3, if_neg h4, if_neg h5,
    if_neg h6]

theorem dumps_head (j : Json) :
    ∃ c cs, dumps j = c :: cs ∧ c ≠ ']' ∧ c ≠ rbraceChar := by
  cases j with
  | null => exact ⟨'n', _, rfl, by decide, by decide⟩
  | bool b => cases b
              · exact ⟨'f', _, rfl, by decide, by decide⟩
              · exact ⟨'t', _, rfl, by decide, by decide⟩
  | str s =>
    refine ⟨'"', escapeChars s.data ++ ['"'], ?_, by decide, by decide⟩
    simp [dumps]
  | arr xs =>
    refine ⟨'[', dumpsList xs ++ [']'], ?_, by decide, by decide⟩
    simp [dumps]
  | obj kvs =>
    refine ⟨lbraceChar, dumpsObj kvs ++ [rbraceChar], ?_, by decide, by decide⟩
    simp [dumps]
  | int n =>
    obtain ⟨c, cs, hc, hd⟩ := printInt_head n
    refine ⟨c, cs, by simp [dumps, hc], ?_, ?_⟩ <;>
      (cases hd with
       | inl h => subst h; decide
       | inr h => first
         | exact (isDigit_not_special c h).2.2.2.2.2.2.2.1
         | exact (isDigit_not_special c h).2.2.2.2.2.2.2.2)
  | num q =>
    obtain ⟨c, cs, hc, hd⟩ := printRat_head q
    refine ⟨c, cs, by simp [dumps, hc], ?_, ?_⟩ <;>
      (cases hd with
       | inl h => subst h; decide
       | inr h => first
         | exact (isDigit_not_special c h).2.2.2.2.2.2.2.1
         | exact (isDigit_not_special c h).2.2.2.2.2.2.2.2)

theorem stops_cons (a : Char) (h1 : a.isDigit = false) (h2 : a ≠ '/')
    (l : List Char) :
    ∀ c, (a :: l).head? = some c → c.isDigit = false ∧ c ≠ '/' := by
  intro c hc
  rw [List.head?_cons, Option.some.injEq] at hc
  subst hc
  exact ⟨h1, h2⟩

theorem parse_dumps (fuel : Nat) :
    (∀ (j : Json) (rest : List Char),
      (dumps j).length < fuel →
      (∀ c, rest.head? = some c → c.isDigit = false ∧ c ≠ '/') →
      parseJ fuel (dumps j ++ rest) = some (j, rest)) ∧
    (∀ (xs : List Json) (rest : List Char), xs ≠ [] →
      (dumpsList xs).length + 1 < fuel →
      parseArrElems fuel (dumpsList xs ++ (']' :: rest)) = some (xs, rest)) ∧
    (∀ (kvs : List (String × Json)) (rest : List Char), kvs ≠ [] →
      (dumpsObj kvs).length + 1 < fuel →
      parseObjMembers fuel (dumpsObj kvs ++ (rbraceChar :: rest)) =
        some (kvs, rest)) := by
  induction fuel using Nat.strong_induction_on with
  | _ fuel ih =>
    cases fuel with
    | zero =>
      refine ⟨fun j rest hlen _ => absurd hlen (by omega),
              fun xs rest _ hlen => absurd hlen (by omega),
              fun kvs rest _ hlen => absurd hlen (by omega)⟩
    | succ fuel =>
      obtain ⟨ihJ, ihA, ihO⟩ := ih fuel (Nat.lt_succ_self fuel)
      refine ⟨?_, ?_, ?_⟩
      · intro j rest hlen hstop
        cases j with
        | null =>
          rw [show dumps .null = ['n', 'u', 'l', 'l'] from rfl]
          rw [List.cons_append, parseJ.eq_def]
          simp [expectLit]
        | bool b =>
          cases b
          · rw [show dumps (.bool false) = ['f', 'a', 'l', 's', 'e'] from rfl]
            rw [List.cons_append, parseJ.eq_def]
            simp [expectLit]
          · rw [show dumps (.bool true) = ['t', 'r', 'u', 'e'] from rfl]
            rw [List.cons_append, parseJ.eq_def]
            simp [expectLit]
        | int n =>
          obtain ⟨c, cs, hc, hd⟩ := printInt_head n
          have hdmp : dumps (.int n) = printInt n := by simp [dumps]
          rw [hdmp, hc, List.cons_append,
            parseJ_num_dispatch fuel c (cs ++ rest) hd, ← List.cons_append, ← hc,
            parseNumTok_printInt n rest hstop]
        | num q =>
          obtain ⟨c, cs, hc, hd⟩ := printRat_head q
          have hdmp : dumps (.num q) = printRat q := by simp [dumps]
          rw [hdmp, hc, List.cons_append,
            parseJ_num_dispatch fuel c (cs ++ rest) hd, ← List.cons_append, ← hc,
            parseNumTok_printRat q rest hstop]
        | str s =>
          have hdmp : dumps (.str s) = '"' :: (escapeChars s.data ++ ['"']) := by
            simp [dumps]
          rw [hdmp, List.cons_append, List.append_assoc, List.singleton_append,
            parseJ.eq_def]
          simp [parseStrChars_escape, string_mk_data]
        | arr xs =>
          cases xs with
          | nil =>
            have hdmp : dumps (.arr []) = ['[', ']'] := by simp [dumps, dumpsList]
            rw [hdmp, List.cons_append, List.cons_append, List.nil_append,
              parseJ.eq_def]
            simp
          | cons x xs2 =>
            obtain ⟨c0, cs0, hc0, hne1, _⟩ := dumps_head x
            have hex : ∃ t, dumpsList (x :: xs2) = c0 :: t := by
              cases xs2 with
              | nil => exact ⟨cs0, by simp [dumpsList, hc0]⟩
              | cons y ys =>
                exact ⟨cs0 ++ ([',', ' '] ++ dumpsList (y :: ys)),
                  by simp [dumpsList, hc0]⟩
            obtain ⟨t, ht⟩ := hex
            have hdmp : dumps (.arr (x :: xs2)) =
                '[' :: (dumpsList (x :: xs2) ++ [']']) := by simp [dumps]
            have hlen2 : (dumpsList (x :: xs2)).length + 1 < fuel := by
              rw [hdmp] at hlen
              simp only [List.length_cons, List.length_append,
                List.length_singleton] at hlen
              omega
            rw [hdmp, List.cons_append, List.append_assoc, List.singleton_append,
              parseJ.eq_def]
            simp only [reduceIte, ht, List.cons_append]
            rw [if_neg hne1, ← List.cons_append, ← ht,
              ihA (x :: xs2) rest (by simp) hlen2]
            simp
        | obj kvs =>
          cases kvs with
          | nil =>
            have hdmp : dumps (.obj []) = [lbraceChar, rbraceChar] := by
              simp [dumps, dumpsObj]
            rw [hdmp, List.cons_append, List.cons_append, List.nil_append,
              parseJ.eq_def]
            simp [lbraceChar, rbraceChar]
          | cons kv ps =>
            obtain ⟨k, v⟩ := kv
            have hex : ∃ t, dumpsObj ((k, v) :: ps) = '"' :: t := by
              cases ps with
              | nil =>
                exact ⟨escapeChars k.data ++ ('"' :: (':' :: (' ' :: dumps v))),
                  by simp [dumpsObj]⟩
              | cons p2 ps2 =>
                exact ⟨escapeChars k.data ++ ('"' :: (':' :: (' ' :: (dumps v ++
                  (',' :: (' ' :: dumpsObj (p2 :: ps2))))))),
                  by simp [dumpsObj]⟩
            obtain ⟨t, ht⟩ := hex
            have hdmp : dumps (.obj ((k, v) :: ps)) =
                lbraceChar :: (dumpsObj ((k, v) :: ps) ++ [rbraceChar]) := by
              simp [dumps]
            have hlen2 : (dumpsObj ((k, v) :: ps)).length + 1 < fuel := by
              rw [hdmp] at hlen
              simp only [List.length_cons, List.length_append,
                List.length_singleton] at hlen
              omega
            rw [hdmp, List.cons_append, List.append_assoc, List.singleton_append,
              parseJ.eq_def]
            simp only [reduceIte, ht, List.cons_append, lbraceChar, rbraceChar]
            rw [if_neg (by decide : ¬ ('"' : Char) = Char.ofNat 125),
              ← List.cons_append, ← ht]
            rw [show Char.ofNat 125 = rbraceChar from rfl,
              ihO ((k, v) :: ps) rest (by simp) hlen2]
            simp
      · intro xs rest hne hlen
        cases xs with
        | nil => exact absurd rfl hne
        | cons x xs2 =>
          cases xs2 with
          | nil =>
            have hd1 : dumpsList [x] = dumps x := by simp [dumpsList]
            rw [hd1] at hlen ⊢
            rw [parseArrElems.eq_def]
            simp only [
              ihJ x (']' :: rest) (by omega)
                (stops_cons ']' (by decide) (by decide) rest),
              Option.some_bind, reduceIte]
          | cons y ys =>
            have hd1 : dumpsList (x :: y :: ys) =
                dumps x ++ ([',', ' '] ++ dumpsList (y :: ys)) := by
              simp [dumpsList]
            rw [hd1] at hlen ⊢
            have hlx : (dumps x).length < fuel := by
              simp only [List.length_append, List.length_cons] at hlen
              omega
            have hly : (dumpsList (y :: ys)).length + 1 < fuel := by
              simp only [List.length_append, List.length_cons] at hlen
              omega
            rw [List.append_assoc]
            rw [show ([',', ' '] ++ dumpsList (y :: ys)) ++ (']' :: rest) =
              ',' :: (' ' :: (dumpsList (y :: ys) ++ (']' :: rest))) by simp]
            rw [parseArrElems.eq_def]
            simp only [
              ihJ x (',' :: (' ' :: (dumpsList (y :: ys) ++ (']' :: rest))))
                hlx (stops_cons ',' (by decide) (by decide) _),
              Option.some_bind, reduceIte,
              ihA (y :: ys) rest (by simp) hly, Option.map_some']
            rw [if_neg (by decide : ¬ (',' : Char) = ']')]
      · intro kvs rest hne hlen
        cases kvs with
        | nil => exact absurd rfl hne
        | cons kv ps =>
          obtain ⟨k, v⟩ := kv
          cases ps with
          | nil =>
            have hd1 : dumpsObj [(k, v)] =
                '"' :: (escapeChars k.data ++ ('"' :: (':' :: (' ' :: dumps v)))) := by
              simp [dumpsObj]
            rw [hd1] at hlen ⊢
            have hlv : (dumps v).length < fuel := by
              simp only [List.length_cons, List.length_append] at hlen
              omega
            rw [List.cons_append]
            rw [show (escapeChars k.data ++ ('"' :: (':' :: (' ' :: dumps v)))) ++
              (rbraceChar :: rest) =
              escapeChars k.data ++ ('"' :: (':' :: (' ' :: (dumps v ++
                (rbraceChar :: rest))))) by simp]
            rw [parseObjMembers.eq_def]
            simp only [reduceIte,
              parseStrChars_escape k.data
                (':' :: (' ' :: (dumps v ++ (rbraceChar :: rest)))),
              Option.some_bind,
              ihJ v (rbraceChar :: rest) hlv
                (stops_cons rbraceChar (by decide) (by decide) rest),
              string_mk_data]
          | cons p2 ps2 =>
            obtain ⟨k2, v2⟩ := p2
            have hd1 : dumpsObj ((k, v) :: (k2, v2) :: ps2) =
                '"' :: (escapeChars k.data ++ ('"' :: (':' :: (' ' :: (dumps v ++
                  (',' :: (' ' :: dumpsObj ((k2, v2) :: ps2)))))))) := by
              simp [dumpsObj]
            rw [hd1] at hlen ⊢
            have hlv : (dumps v).length < fuel := by
              simp only [List.length_cons, List.length_append] at hlen
              omega
            have hlo : (dumpsObj ((k2, v2) :: ps2)).length + 1 < fuel := by
              simp only [List.length_cons, List.length_append] at hlen
              omega
            rw [List.cons_append]
            rw [show (escapeChars k.data ++ ('"' :: (':' :: (' ' :: (dumps v ++
                (',' :: (' ' :: dumpsObj ((k2, v2) :: ps2)))))))) ++
                (rbraceChar :: rest) =
              escapeChars k.data ++ ('"' :: (':' :: (' ' :: (dumps v ++
                (',' :: (' ' :: (dumpsObj ((k2, v2) :: ps2) ++
                  (rbraceChar :: rest)))))))) by simp]
            rw [parseObjMembers.eq_def]
            simp only [reduceIte,
              parseStrChars_escape k.data
                (':' :: (' ' :: (dumps v ++ (',' :: (' ' :: (dumpsObj
                  ((k2, v2) :: ps2) ++ (rbraceChar :: rest))))))),
              Option.some_bind,
              ihJ v (',' :: (' ' :: (dumpsObj ((k2, v2) :: ps2) ++
                (rbraceChar :: rest)))) hlv
                (stops_cons ',' (by decide) (by decide) _),
              if_neg (by decide : ¬ (',' : Char) = rbraceChar),
              ihO ((k2, v2) :: ps2) rest (by simp) hlo,
              Option.map_some', string_mk_data]

theorem parseJson_dumps (j : Json) : parseJson (dumps j) = some j := by
  rw [parseJson]
  have h := (parse_dumps ((dumps j).length + 1)).1 j [] (by omega)
    (fun c hc => by simp at hc)
  rw [List.append_nil] at h
  rw [h]

theorem mapM_loop_map_roundtrip {α β : Type} (f : β → Option α) (g : α → β)
    (h : ∀ x, f (g x) = some x) (xs : List α) (acc : List α) :
    List.mapM.loop f (xs.map g) acc = some (acc.reverse ++ xs) := by
  induction xs generalizing acc with
  | nil => simp [List.mapM.loop]
  | cons x xs ih => simp [List.mapM.loop, h, ih]

theorem mapM_map_roundtrip {α β : Type} (f : β → Option α) (g : α → β)
    (h : ∀ x, f (g x) = some x) (xs : List α) :
    (xs.map g).mapM f = some xs := by
  have h2 := mapM_loop_map_roundtrip f g h xs []
  simpa [List.mapM] using h2

namespace Schemas

theorem ppe_ofInt_toInt (v : PPEViolationType) :
    PPEViolationType.ofInt v.toInt = some v := by
  cases v <;> rfl

theorem activity_ofInt_toInt (v : ActivityType) :
    ActivityType.ofInt v.toInt = some v := by
  cases v <;> rfl

theorem severity_ofInt_toInt (v : AlertSeverity) :
    AlertSeverity.ofInt v.toInt = some v := by
  cases v <;> rfl

theorem alertType_ofInt_toInt (v : AlertType) :
    AlertType.ofInt v.toInt = some v := by
  cases v <;> rfl

theorem alertStatus_ofInt_toInt (v : AlertStatus) :
    AlertStatus.ofInt v.toInt = some v := by
  cases v <;> rfl

theorem ratMap_roundtrip (kvs : List (String × Rat)) :
    asRatMap (.obj (kvs.map (fun p => (p.1, .num p.2)))) = some kvs := by
  simp only [asRatMap]
  refine mapM_map_roundtrip _ _ (fun q => ?_) kvs
  rfl

theorem strMap_roundtrip (kvs : List (String × String)) :
    asStrMap (.obj (kvs.map (fun p => (p.1, .str p.2)))) = some kvs := by
  simp only [asStrMap]
  refine mapM_map_roundtrip _ _ (fun q => ?_) kvs
  rfl

theorem ppe_int_list_roundtrip (l : List PPEViolationType) :
    (l.map (fun p => Json.int p.toInt)).mapM
      (fun x => (asInt x).bind PPEViolationType.ofInt) = some l :=
  mapM_map_roundtrip _ _ (fun p => by simp [asInt, ppe_ofInt_toInt]) l

theorem ppe_int_list_loop_roundtrip (l : List PPEViolationType) :
    List.mapM.loop (fun x => (asInt x).bind PPEViolationType.ofInt)
      (l.map (fun p => Json.int p.toInt)) [] = some l := by
  simpa using mapM_loop_map_roundtrip _ _
    (fun p => by simp [asInt, ppe_ofInt_toInt]) l []

theorem bbox_roundtrip (b : BoundingBox) :
    BoundingBox.from_dict b.to_dict = some b := rfl

theorem confidence_roundtrip (c : ConfidenceScore) :
    ConfidenceScore.from_dict c.to_dict = some c := by
  obtain ⟨ov, bd⟩ := c
  simp [ConfidenceScore.from_dict, ConfidenceScore.to_dict, numKey,
    Json.getKey, asNum, readRatMapD, ratMap_roundtrip]

theorem geo_roundtrip (g : GeoLocation) :
    GeoLocation.from_dict g.to_dict = some g := by
  obtain ⟨la, lo, ac, al⟩ := g
  cases al <;>
    simp [GeoLocation.from_dict, GeoLocation.to_dict, numKey, Json.getKey,
      asNum, readOptNum, optNumJson]

theorem imu_roundtrip (m : IMUData) :
    IMUData.from_dict m.to_dict = some m := by
  obtain ⟨ax, ay, az, gx, gy, gz, mx, my, mz⟩ := m
  cases mx <;> cases my <;> cases mz <;>
    simp [IMUData.from_dict, IMUData.to_dict, numKey, Json.getKey, asNum,
      readOptNum, optNumJson]

theorem health_roundtrip (d : DeviceHealth) :
    DeviceHealth.from_dict d.to_dict = some d := rfl

theorem ppeViolation_roundtrip (v : PPEViolation) :
    PPEViolation.from_dict v.to_dict = some v := by
  obtain ⟨vt, bb, c, w⟩ := v
  cases w <;>
    simp [PPEViolation.from_dict, PPEViolation.to_dict, intKey, Json.getKey,
      asInt, readOptStr, optStrJson, ppe_ofInt_toInt, bbox_roundtrip,
      confidence_roundtrip]

theorem activity_roundtrip (a : ActivityDetection) :
    ActivityDetection.from_dict a.to_dict = some a := by
  obtain ⟨at2, bb, c, dur, w⟩ := a
  cases dur <;> cases w <;>
    simp [ActivityDetection.from_dict, ActivityDetection.to_dict, intKey,
      Json.getKey, asInt, readOptStr, readOptInt, optStrJson, optIntJson,
      activity_ofInt_toInt, bbox_roundtrip, confidence_roundtrip]

theorem zone_roundtrip (z : Zone) :
    Zone.from_dict z.to_dict = some z := by
  obtain ⟨zi, zn, zt, rp⟩ := z
  simp [Zone.from_dict, Zone.to_dict, strKey, Json.getKey, asStr, readArrD,
    ppe_int_list_roundtrip, ppe_int_list_loop_roundtrip]

theorem string_data_mk (l : List Char) : (String.mk l).data = l := rfl

theorem strList_roundtrip (l : List String) :
    (l.map (fun s => Json.str s)).mapM asStr = some l := by
  refine mapM_map_roundtrip _ _ (fun s => ?_) l
  rfl

theorem strList_loop_roundtrip (l : List String) :
    List.mapM.loop asStr (l.map (fun s => Json.str s)) [] = some l := by
  simpa using mapM_loop_map_roundtrip asStr (fun s => Json.str s)
    (fun s => rfl) l []

theorem ppeList_roundtrip (l : List PPEViolation) :
    (l.map PPEViolation.to_dict).mapM PPEViolation.from_dict = some l :=
  mapM_map_roundtrip PPEViolation.from_dict PPEViolation.to_dict
    ppeViolation_roundtrip l

theorem ppeList_loop_roundtrip (l : List PPEViolation) :
    List.mapM.loop PPEViolation.from_dict (l.map PPEViolation.to_dict) [] =
      some l := by
  simpa using mapM_loop_map_roundtrip PPEViolation.from_dict
    PPEViolation.to_dict ppeViolation_roundtrip l []

theorem activityList_roundtrip (l : List ActivityDetection) :
    (l.map ActivityDetection.to_dict).mapM ActivityDetection.from_dict =
      some l :=
  mapM_map_roundtrip ActivityDetection.from_dict ActivityDetection.to_dict
    activity_roundtrip l

theorem activityList_loop_roundtrip (l : List ActivityDetection) :
    List.mapM.loop ActivityDetection.from_dict
      (l.map ActivityDetection.to_dict) [] = some l := by
  simpa using mapM_loop_map_roundtrip ActivityDetection.from_dict
    ActivityDetection.to_dict activity_roundtrip l []

theorem isoformat_ne_nil (d : PyDatetime) : isoformat d ≠ [] := by
  simp [isoformat]

theorem isoformat_ne_empty (d : PyDatetime) :
    String.mk (isoformat d) ≠ "" := by
  intro h
  exact isoformat_ne_nil d (congrArg String.data h)

theorem detectionEvent_dict_roundtrip (e : DetectionEvent) (hwf : e.wf) :
    DetectionEvent.from_dict e.to_dict = some e := by
  have h1 : strKey e.to_dict "event_id" = some e.event_id := by
    simp [DetectionEvent.to_dict, strKey, Json.getKey, asStr]
  have h2 : strKey e.to_dict "frame_id" = some e.frame_id := by
    simp [DetectionEvent.to_dict, strKey, Json.getKey, asStr]
  have h3 : strKey e.to_dict "device_id" = some e.device_id := by
    simp [DetectionEvent.to_dict, strKey, Json.getKey, asStr]
  have hs4 : strKey e.to_dict "timestamp" =
      some (String.mk (isoformat e.timestamp)) := by
    simp [DetectionEvent.to_dict, strKey, Json.getKey, asStr]
  have h4 : dtKey e.to_dict "timestamp" = some e.timestamp := by
    rw [dtKey, hs4, Option.some_bind]
    exact fromisoformat_isoformat e.timestamp hwf
  have h5 : strKey e.to_dict "model_id" = some e.model_id := by
    simp [DetectionEvent.to_dict, strKey, Json.getKey, asStr]
  have h6 : strKey e.to_dict "model_version" = some e.model_version := by
    simp [DetectionEvent.to_dict, strKey, Json.getKey, asStr]
  have h7 : intKey e.to_dict "processing_latency_ms" =
      some e.processing_latency_ms := by
    simp [DetectionEvent.to_dict, intKey, Json.getKey, asInt]
  have h8 : readArrD e.to_dict "ppe_violations" PPEViolation.from_dict =
      some e.ppe_violations := by
    simp [DetectionEvent.to_dict, readArrD, Json.getKey, ppeList_roundtrip,
      ppeList_loop_roundtrip]
  have h9 : readArrD e.to_dict "activity_detections"
      ActivityDetection.from_dict = some e.activity_detections := by
    simp [DetectionEvent.to_dict, readArrD, Json.getKey,
      activityList_roundtrip, activityList_loop_roundtrip]
  have h10 : readTruthy e.to_dict "zone" Zone.from_dict = some e.zone := by
    cases hz : e.zone with
    | none => simp [DetectionEvent.to_dict, readTruthy, Json.getKey, Json.truthy, hz]
    | some zo =>
      have ht : (Zone.to_dict zo).truthy = true := by
        simp [Zone.to_dict, Json.truthy]
      simp [DetectionEvent.to_dict, readTruthy, Json.getKey, hz, ht,
        zone_roundtrip]
  have h11 : readStrMapD e.to_dict "metadata" = some e.metadata := by
    simp [DetectionEvent.to_dict, readStrMapD, Json.getKey,
      strMap_roundtrip]
  simp [DetectionEvent.from_dict, h1, h2, h3, h4, h5, h6, h7, h8, h9, h10,
    h11]

theorem frameMetadata_dict_roundtrip (f : FrameMetadata) (hwf : f.wf) :
    FrameMetadata.from_dict f.to_dict = some f := by
  obtain ⟨hc, hu⟩ := hwf
  have ha1 : strKey f.to_dict "frame_id" = some f.frame_id := by
    simp [FrameMetadata.to_dict, strKey, Json.getKey, asStr]
  have ha2 : strKey f.to_dict "device_id" = some f.device_id := by
    simp [FrameMetadata.to_dict, strKey, Json.getKey, asStr]
  have ha3 : readStrD f.to_dict "device_type" "SMART_GLASSES_V1" =
      some f.device_type := by
    simp [FrameMetadata.to_dict, readStrD, Json.getKey]
  have ha4 : readStrD f.to_dict "device_firmware_version" "1.0.0" =
      some f.device_firmware_version := by
    simp [FrameMetadata.to_dict, readStrD, Json.getKey]
  have hs5 : strKey f.to_dict "capture_timestamp" =
      some (String.mk (isoformat f.capture_timestamp)) := by
    simp [FrameMetadata.to_dict, strKey, Json.getKey, asStr]
  have ha5 : dtKey f.to_dict "capture_timestamp" =
      some f.capture_timestamp := by
    rw [dtKey, hs5, Option.some_bind]
    exact fromisoformat_isoformat f.capture_timestamp hc
  have hs6 : strKey f.to_dict "upload_timestamp" =
      some (String.mk (isoformat f.upload_timestamp)) := by
    simp [FrameMetadata.to_dict, strKey, Json.getKey, asStr]
  have ha6 : dtKey f.to_dict "upload_timestamp" =
      some f.upload_timestamp := by
    rw [dtKey, hs6, Option.some_bind]
    exact fromisoformat_isoformat f.upload_timestamp hu
  have ha7 : readStrD f.to_dict "resolution" "1080P" =
      some f.resolution := by
    simp [FrameMetadata.to_dict, readStrD, Json.getKey]
  have ha8 : readStrD f.to_dict "format" "JPEG" = some f.format := by
    simp [FrameMetadata.to_dict, readStrD, Json.getKey]
  have ha9 : intKey f.to_dict "width" = some f.width := by
    simp [FrameMetadata.to_dict, intKey, Json.getKey, asInt]
  have ha10 : intKey f.to_dict "height" = some f.height := by
    simp [FrameMetadata.to_dict, intKey, Json.getKey, asInt]
  have ha11 : intKey f.to_dict "frame_number" = some f.frame_number := by
    simp [FrameMetadata.to_dict, intKey, Json.getKey, asInt]
  have hA : FrameMetadata.fromDictA f.to_dict =
      some (f.frame_id, f.device_id, f.device_type,
        f.device_firmware_version, f.capture_timestamp, f.upload_timestamp,
        f.resolution, f.format, f.width, f.height, f.frame_number) := by
    simp [FrameMetadata.fromDictA, ha1, ha2, ha3, ha4, ha5, ha6, ha7, ha8,
      ha9, ha10, ha11]
  have hb1 : strKey f.to_dict "frame_data_uri" = some f.frame_data_uri := by
    simp [FrameMetadata.to_dict, strKey, Json.getKey, asStr]
  have hb2 : intKey f.to_dict "frame_size_bytes" =
      some f.frame_size_bytes := by
    simp [FrameMetadata.to_dict, intKey, Json.getKey, asInt]
  have hb3 : strKey f.to_dict "session_id" = some f.session_id := by
    simp [FrameMetadata.to_dict, strKey, Json.getKey, asStr]
  have hb4 : readTruthy f.to_dict "location" GeoLocation.from_dict =
      some f.location := by
    cases hl : f.location with
    | none => simp [FrameMetadata.to_dict, readTruthy, Json.getKey, Json.truthy, hl]
    | some g =>
      have ht : (GeoLocation.to_dict g).truthy = true := by
        simp [GeoLocation.to_dict, Json.truthy]
      simp [FrameMetadata.to_dict, readTruthy, Json.getKey, hl, ht,
        geo_roundtrip]
  have hb5 : readTruthy f.to_dict "imu_data" IMUData.from_dict =
      some f.imu_data := by
    cases hm : f.imu_data with
    | none => simp [FrameMetadata.to_dict, readTruthy, Json.getKey, Json.truthy, hm]
    | some m =>
      have ht : (IMUData.to_dict m).truthy = true := by
        simp [IMUData.to_dict, Json.truthy]
      simp [FrameMetadata.to_dict, readTruthy, Json.getKey, hm, ht,
        imu_roundtrip]
  have hb6 : readTruthy f.to_dict "device_health" DeviceHealth.from_dict =
      some f.device_health := by
    cases hd : f.device_health with
    | none => simp [FrameMetadata.to_dict, readTruthy, Json.getKey, Json.truthy, hd]
    | some d =>
      have ht : (DeviceHealth.to_dict d).truthy = true := by
        simp [DeviceHealth.to_dict, Json.truthy]
      simp [FrameMetadata.to_dict, readTruthy, Json.getKey, hd, ht,
        health_roundtrip]
  have hb7 : readOptNum f.to_dict "brightness" = some f.brightness := by
    cases hb : f.brightness <;>
      simp [FrameMetadata.to_dict, readOptNum, Json.getKey, optNumJson, hb]
  have hb8 : readOptNum f.to_dict "blur_score" = some f.blur_score := by
    cases hb : f.blur_score <;>
      simp [FrameMetadata.to_dict, readOptNum, Json.getKey, optNumJson, hb]
  have hb9 : readOptBool f.to_dict "is_occluded" = some f.is_occluded := by
    cases hb : f.is_occluded <;>
      simp [FrameMetadata.to_dict, readOptBool, Json.getKey, optBoolJson, hb]
  have hb10 : readStrMapD f.to_dict "metadata" = some f.metadata := by
    simp [FrameMetadata.to_dict, readStrMapD, Json.getKey, strMap_roundtrip]
  have hB : FrameMetadata.fromDictB f.to_dict =
      some (f.frame_data_uri, f.frame_size_bytes, f.session_id, f.location,
        f.imu_data, f.device_health, f.brightness, f.blur_score,
        f.is_occluded, f.metadata) := by
    simp [FrameMetadata.fromDictB, hb1, hb2, hb3, hb4, hb5, hb6, hb7, hb8,
      hb9, hb10]
  simp [FrameMetadata.from_dict, hA, hB]

theorem alert_dict_roundtrip (a : Alert) (hwf : a.wf) :
    Alert.from_dict a.to_dict = some a := by
  obtain ⟨hc, hu, he⟩ := hwf
  have ha1 : strKey a.to_dict "alert_id" = some a.alert_id := by
    simp [Alert.to_dict, strKey, Json.getKey, asStr]
  have ha2 : (intKey a.to_dict "alert_type").bind AlertType.ofInt =
      some a.alert_type := by
    simp [Alert.to_dict, intKey, Json.getKey, asInt, alertType_ofInt_toInt]
  have ha3 : (intKey a.to_dict "severity").bind AlertSeverity.ofInt =
      some a.severity := by
    simp [Alert.to_dict, intKey, Json.getKey, asInt, severity_ofInt_toInt]
  have ha4 : (intKey a.to_dict "status").bind AlertStatus.ofInt =
      some a.status := by
    simp [Alert.to_dict, intKey, Json.getKey, asInt, alertStatus_ofInt_toInt]
  have ha5 : strKey a.to_dict "title" = some a.title := by
    simp [Alert.to_dict, strKey, Json.getKey, asStr]
  have ha6 : strKey a.to_dict "description" = some a.description := by
    simp [Alert.to_dict, strKey, Json.getKey, asStr]
  have hs7 : strKey a.to_dict "created_at" =
      some (String.mk (isoformat a.created_at)) := by
    simp [Alert.to_dict, strKey, Json.getKey, asStr]
  have ha7 : dtKey a.to_dict "created_at" = some a.created_at := by
    rw [dtKey, hs7, Option.some_bind]
    exact fromisoformat_isoformat a.created_at hc
  have hs8 : strKey a.to_dict "updated_at" =
      some (String.mk (isoformat a.updated_at)) := by
    simp [Alert.to_dict, strKey, Json.getKey, asStr]
  have ha8 : dtKey a.to_dict "updated_at" = some a.updated_at := by
    rw [dtKey, hs8, Option.some_bind]
    exact fromisoformat_isoformat a.updated_at hu
  have hA : Alert.fromDictA a.to_dict =
      some (a.alert_id, a.alert_type, a.severity, a.status, a.title,
        a.description, a.created_at, a.updated_at) := by
    simp [Alert.fromDictA, ha1, ha2, ha3, ha4, ha5, ha6, ha7, ha8]
  have hb1 : readTruthy a.to_dict "expires_at"
      (fun v => (asStr v).bind (fun s => fromisoformat s.data)) =
      some a.expires_at := by
    cases hea : a.expires_at with
    | none => simp [Alert.to_dict, readTruthy, Json.getKey, Json.truthy, hea]
    | some d =>
      have hd : d.wf := he d hea
      have ht : Json.truthy (.str (String.mk (isoformat d))) = true := by
        simp [Json.truthy, isoformat_ne_empty d]
      simp [Alert.to_dict, readTruthy, Json.getKey, hea, ht, asStr,
        string_data_mk, fromisoformat_isoformat d hd]
  have hb2 : strKey a.to_dict "device_id" = some a.device_id := by
    simp [Alert.to_dict, strKey, Json.getKey, asStr]
  have hb3 : readOptStr a.to_dict "worker_id" = some a.worker_id := by
    cases hw : a.worker_id <;>
      simp [Alert.to_dict, readOptStr, Json.getKey, optStrJson, hw]
  have hb4 : strKey a.to_dict "rule_id" = some a.rule_id := by
    simp [Alert.to_dict, strKey, Json.getKey, asStr]
  have hb5 : readIntD a.to_dict "priority_score" 0 =
      some a.priority_score := by
    simp [Alert.to_dict, readIntD, Json.getKey]
  have hb6 : readArrD a.to_dict "source_detection_ids" asStr =
      some a.source_detection_ids := by
    simp [Alert.to_dict, readArrD, Json.getKey, strList_roundtrip,
      strList_loop_roundtrip]
  have hb7 : readArrD a.to_dict "tags" asStr = some a.tags := by
    simp [Alert.to_dict, readArrD, Json.getKey, strList_roundtrip,
      strList_loop_roundtrip]
  have hb8 : readStrMapD a.to_dict "metadata" = some a.metadata := by
    simp [Alert.to_dict, readStrMapD, Json.getKey, strMap_roundtrip]
  have hB : Alert.fromDictB a.to_dict =
      some (a.expires_at, a.device_id, a.worker_id, a.rule_id,
        a.priority_score, a.source_detection_ids, a.tags, a.metadata) := by
    simp [Alert.fromDictB, hb1, hb2, hb3, hb4, hb5, hb6, hb7, hb8]
  simp [Alert.from_dict, hA, hB]

theorem detectionEvent_bytes_of_dict (e : DetectionEvent)
    (h : DetectionEvent.from_dict e.to_dict = some e) :
    DetectionEvent.from_bytes e.to_bytes = some e := by
  simp only [DetectionEvent.from_bytes, DetectionEvent.to_bytes,
    DetectionEvent.from_json, DetectionEvent.to_json, string_mk_data,
    string_data_mk, parseJson_dumps, Option.some_bind, h]

theorem frameMetadata_bytes_of_dict (f : FrameMetadata)
    (h : FrameMetadata.from_dict f.to_dict = some f) :
    FrameMetadata.from_bytes f.to_bytes = some f := by
  simp only [FrameMetadata.from_bytes, FrameMetadata.to_bytes,
    FrameMetadata.from_json, FrameMetadata.to_json, string_mk_data,
    string_data_mk, parseJson_dumps, Option.some_bind, h]

theorem alert_bytes_of_dict (a : Alert)
    (h : Alert.from_dict a.to_dict = some a) :
    Alert.from_bytes a.to_bytes = some a := by
  simp only [Alert.from_bytes, Alert.to_bytes, Alert.from_json,
    Alert.to_json, string_mk_data, string_data_mk, parseJson_dumps,
    Option.some_bind, h]

end Schemas

/-- C7: the round-trip invariant of the wire schemas.  For every in-domain
`DetectionEvent`, `FrameMetadata` and `Alert` — including nested
violations, activities, zone and the optional fields; in-domain means the
datetimes carried by the value have components in the ranges `datetime`
itself enforces — `from_dict` inverts `to_dict` and `from_bytes` inverts
`to_bytes`. -/
theorem c7_roundtrip (e : Schemas.DetectionEvent) (f : Schemas.FrameMetadata)
    (a : Schemas.Alert) (he : e.wf) (hf : f.wf) (ha : a.wf) :
    Schemas.DetectionEvent.from_dict e.to_dict = some e ∧
    Schemas.DetectionEvent.from_bytes e.to_bytes = some e ∧
    Schemas.FrameMetadata.from_dict f.to_dict = some f ∧
    Schemas.FrameMetadata.from_bytes f.to_bytes = some f ∧
    Schemas.Alert.from_dict a.to_dict = some a ∧
    Schemas.Alert.from_bytes a.to_bytes = some a := by
  have h1 := Schemas.detectionEvent_dict_roundtrip e he
  have h2 := Schemas.frameMetadata_dict_roundtrip f hf
  have h3 := Schemas.alert_dict_roundtrip a ha
  exact ⟨h1, Schemas.detectionEvent_bytes_of_dict e h1, h2,
    Schemas.frameMetadata_bytes_of_dict f h2, h3,
    Schemas.alert_bytes_of_dict a h3⟩

/-- C7 witness: the round-trip at concrete nested sample values. -/
theorem c7_roundtrip_witness :
    Schemas.DetectionEvent.from_dict Schemas.sampleEvent.to_dict =
      some Schemas.sampleEvent ∧
    Schemas.DetectionEvent.from_bytes Schemas.sampleEvent.to_bytes =
      some Schemas.sampleEvent ∧
    Schemas.FrameMetadata.from_dict Schemas.sampleFrame.to_dict =
      some Schemas.sampleFrame ∧
    Schemas.FrameMetadata.from_bytes Schemas.sampleFrame.to_bytes =
      some Schemas.sampleFrame ∧
    Schemas.Alert.from_dict Schemas.sampleAlert.to_dict =
      some Schemas.sampleAlert ∧
    Schemas.Alert.from_bytes Schemas.sampleAlert.to_bytes =
      some Schemas.sampleAlert :=
  c7_roundtrip Schemas.sampleEvent Schemas.sampleFrame Schemas.sampleAlert
    (show PyDatetime.wf Schemas.sampleTime by decide)
    (show PyDatetime.wf Schemas.sampleTime ∧
      PyDatetime.wf ⟨2024, 3, 14, 15, 9, 27, 0⟩ from ⟨by decide, by decide⟩)
    (show PyDatetime.wf Schemas.sampleTime ∧
      PyDatetime.wf Schemas.sampleTime ∧
      (∀ d, Schemas.sampleAlert.expires_at = some d → PyDatetime.wf d) from
      ⟨by decide, by decide, fun d hd => by
        have h3 : some (⟨2024, 3, 15, 0, 0, 0, 0⟩ : PyDatetime) = some d := hd
        injection h3 with h2
        exact h2 ▸ (by decide : PyDatetime.wf ⟨2024, 3, 15, 0, 0, 0, 0⟩)⟩)

end Nier
